import Mathlib

/-!
BeaverMarketBot: the alert evaluation and notification engine.

A shallow embedding of `src/src/services/alerts.js` (class `AlertService`) and of
`MarketBot.performMarketCheck` in `src/src/index.js`.

Modelling conventions.

* JavaScript numbers that are metric values or thresholds are rationals; a missing
  property (`undefined`) is `none`.  NaN and the infinities are outside the model.
* The `Map` `alertHistory` is an association list in insertion order with unique keys.
* `Date.now()` and the other clock readings are explicit arguments (`Clock`).
* The chat transport is a function telling, for a text, whether
  `bot.telegram.sendMessage` resolves (`true`) or rejects (`false`); the texts passed
  to it are logged, in call order, in `Service.sent`.
* Number formatting and case mapping of the host runtime (`toFixed`, number to
  string, `toUpperCase`) are parameters (`Runtime`).
-/

namespace BeaverMarketBot

/-! ## Data model -/

/-- The three values of the `urgency` field that the classifier produces. -/
inductive Urgency where
  | HIGH
  | MEDIUM
  | LOW
  deriving DecidableEq, Repr

/-- Number formatting and case mapping supplied by the host runtime. -/
structure Runtime where
  /-- Method `Number.prototype.toFixed`. -/
  toFixed : ℚ → Nat → String
  /-- Conversion of a number inside a template literal. -/
  numToString : ℚ → String
  /-- Method `String.prototype.toUpperCase`. -/
  toUpperCase : String → String

/-- Clock readings available at one instant. -/
structure Clock where
  /-- Result of `Date.now()`, milliseconds. -/
  now : Int
  /-- Result of `new Date().toISOString()`. -/
  iso : String
  /-- Result of `new Date().toLocaleTimeString()`. -/
  timeLabel : String

/-- The object literal pushed by one of the `check…Alerts` functions. -/
structure RawAlert where
  type : String
  urgency : Urgency
  message : String
  recommendation : String
  emoji : String
  deriving DecidableEq, Repr

/-- An alert candidate as returned by `evaluateMetric`. -/
structure Alert where
  type : String
  urgency : Urgency
  message : String
  recommendation : String
  emoji : String
  metricName : String
  timestamp : String
  value : Option ℚ
  deriving DecidableEq

/-- The `thresholds` object: property name to number, `none` for a missing property. -/
abbrev Thresholds := String → Option ℚ

/-- The `config` object of a snapshot entry; `thresholds` may be missing. -/
structure Config where
  thresholds : Option Thresholds

/-- One entry of the snapshot returned by `getAllMetrics`. -/
structure MetricData where
  value : Option ℚ
  error : Option String
  config : Option Config

/-- A snapshot: the entries of the `metrics` object in `Object.entries` order. -/
abbrev Snapshot := List (String × MetricData)

/-- A JavaScript exception. -/
inductive JSError where
  | typeError
  deriving DecidableEq, Repr

/-! ## The cooldown store (`alertHistory`, a JavaScript `Map`) -/

/-- The map `alertHistory`: key to last dispatch time, in insertion order. -/
abbrev AlertHistory := List (String × Int)

namespace AlertHistory

/-- Method `Map.prototype.get`. -/
def get (h : AlertHistory) (k : String) : Option Int :=
  match h with
  | [] => none
  | (k', v) :: rest => if k' = k then some v else get rest k

/-- Method `Map.prototype.set`: an existing key keeps its position, a new key goes last. -/
def set (h : AlertHistory) (k : String) (v : Int) : AlertHistory :=
  match h with
  | [] => [(k, v)]
  | (k', v') :: rest => if k' = k then (k', v) :: rest else (k', v') :: set rest k v

/-- Method `Map.prototype.delete`. -/
def delete (h : AlertHistory) (k : String) : AlertHistory :=
  h.filter (fun e => e.1 ≠ k)

/-- Property `Map.prototype.size`. -/
def size (h : AlertHistory) : Nat := h.length

/-- The value of `keys().next().value`: the first key, `none` (undefined) when empty. -/
def firstKey (h : AlertHistory) : Option String :=
  match h with
  | [] => none
  | (k, _) :: _ => some k

end AlertHistory

/-- The constant `cooldownPeriod` set in the constructor: `30 * 60 * 1000`. -/
def cooldownPeriod : Int := 30 * 60 * 1000

/-- The key `${alert.metricName}_${alert.type}`. -/
def alertKey (alert : Alert) : String :=
  alert.metricName ++ "_" ++ alert.type

/-- Method `shouldSendAlert`; `now` is the reading of `Date.now()`. -/
def shouldSendAlert (alertHistory : AlertHistory) (now : Int) (alert : Alert) : Bool :=
  match alertHistory.get (alertKey alert) with
  | none => true
  | some lastSent =>
    if lastSent = 0 then true
    else
      let timeDiff := now - lastSent
      match alert.urgency with
      | .HIGH => decide (timeDiff > cooldownPeriod / 2)
      | .MEDIUM => decide (timeDiff > cooldownPeriod)
      | .LOW => decide (timeDiff > cooldownPeriod * 2)

/-- Method `recordAlert`; `now` is the reading of `Date.now()`. -/
def recordAlert (alertHistory : AlertHistory) (now : Int) (alert : Alert) : AlertHistory :=
  let h := alertHistory.set (alertKey alert) now
  if h.size > 100 then
    match h.firstKey with
    | some oldestKey => h.delete oldestKey
    | none => h
  else h

/-! ## The threshold classifier -/

/-- Comparison `a >= b` of two numbers; false when either is `undefined`. -/
def jsGe (a b : Option ℚ) : Bool :=
  match a, b with
  | some x, some y => decide (x ≥ y)
  | _, _ => false

/-- Comparison `a > b` of two numbers; false when either is `undefined`. -/
def jsGt (a b : Option ℚ) : Bool :=
  match a, b with
  | some x, some y => decide (x > y)
  | _, _ => false

/-- Comparison `a <= b` of two numbers; false when either is `undefined`. -/
def jsLe (a b : Option ℚ) : Bool :=
  match a, b with
  | some x, some y => decide (x ≤ y)
  | _, _ => false

/-- The text of `value.toFixed(d)`.  On `undefined` the call would raise; no caller
reaches it then, since every guard that compares `undefined` is false. -/
def toFixed (rt : Runtime) (value : Option ℚ) (d : Nat) : String :=
  match value with
  | some v => rt.toFixed v d
  | none => "undefined"

/-- The text of a value interpolated in a template literal. -/
def numToString (rt : Runtime) (value : Option ℚ) : String :=
  match value with
  | some v => rt.numToString v
  | none => "undefined"

/-- Method `checkVIXAlerts`. -/
def checkVIXAlerts (rt : Runtime) (value : Option ℚ) :
    Option Thresholds → Except JSError (List RawAlert)
  | none => .error .typeError
  | some thresholds => .ok <|
    if jsGe value (thresholds "panic") then
      [{ type := "PANIC_BUYING_OPPORTUNITY"
         urgency := .HIGH
         message := "🚨 MAXIMUM CRASH BUYING OPPORTUNITY! VIX at " ++ toFixed rt value 1 ++ " - Deploy ALL remaining cash!"
         recommendation := "Deploy remaining 50% cash immediately into quality assets"
         emoji := "🔴⚫" }]
    else if jsGe value (thresholds "danger") then
      [{ type := "CRASH_MODE"
         urgency := .HIGH
         message := "🔴 RED ALERT: VIX at " ++ toFixed rt value 1 ++ " - Full crash mode activated!"
         recommendation := "Deploy remaining cash aggressively: 25% per week over 4 weeks"
         emoji := "🔴" }]
    else if jsGe value (thresholds "warning") then
      [{ type := "EARLY_CRASH"
         urgency := .MEDIUM
         message := "🟠 ORANGE ALERT: VIX at " ++ toFixed rt value 1 ++ " - Early crash phase detected"
         recommendation := "Deploy first 25% of cash (€3,275) into quality ETFs"
         emoji := "🟠" }]
    else if jsGe value (some 15) then
      [{ type := "ELEVATED_VOLATILITY"
         urgency := .LOW
         message := "🟡 YELLOW ALERT: VIX at " ++ toFixed rt value 1 ++ " - Volatility rising"
         recommendation := "Prepare for potential opportunities, increase monitoring frequency"
         emoji := "🟡" }]
    else []

/-- Method `checkVIXTermStructureAlerts`. -/
def checkVIXTermStructureAlerts (rt : Runtime) (value : Option ℚ) (_thresholds : Option Thresholds) :
    Except JSError (List RawAlert) := .ok <|
    if jsGt value (some 0) then
      [{ type := "VIX_BACKWARDATION"
         urgency := .HIGH
         message := "⚠️ VIX BACKWARDATION DETECTED! Front month " ++ toFixed rt (value.map fun v => |v|) 1 ++ " points above 3-month VIX"
         recommendation := "Prepare for crash within 1-4 weeks"
         emoji := "⚠️" }]
    else []

/-- Method `checkCAPEAlerts`. -/
def checkCAPEAlerts (rt : Runtime) (value : Option ℚ) :
    Option Thresholds → Except JSError (List RawAlert)
  | none => .error .typeError
  | some thresholds => .ok <|
    if jsGt value (thresholds "bubble") then
      [{ type := "EXTREME_BUBBLE"
         urgency := .MEDIUM
         message := "💰 EXTREME BUBBLE: CAPE at " ++ toFixed rt value 1 ++ " - Only occurred 6 times in 150 years!"
         recommendation := "Maintain maximum cash position, prepare for generational buying opportunity"
         emoji := "💰" }]
    else if jsGt value (thresholds "overvalued") then
      [{ type := "BUBBLE_TERRITORY"
         urgency := .LOW
         message := "📈 BUBBLE TERRITORY: CAPE at " ++ toFixed rt value 1 ++ " - Market extremely overvalued"
         recommendation := "Reduce risk positions, maintain high cash levels"
         emoji := "📈" }]
    else []

/-- Method `checkMarginDebtAlerts`. -/
def checkMarginDebtAlerts (_rt : Runtime) (_value : Option ℚ) (_thresholds : Option Thresholds) :
    Except JSError (List RawAlert) :=
  .ok []

/-- Method `checkMcclellanAlerts`. -/
def checkMcclellanAlerts (rt : Runtime) (value : Option ℚ) :
    Option Thresholds → Except JSError (List RawAlert)
  | none => .error .typeError
  | some thresholds => .ok <|
    if jsLe value (thresholds "capitulation") then
      [{ type := "CAPITULATION"
         urgency := .HIGH
         message := "🔥 CAPITULATION SIGNAL: McClellan at " ++ toFixed rt value 0 ++ " - Maximum buying opportunity!"
         recommendation := "Deploy all remaining cash immediately"
         emoji := "🔥" }]
    else if jsLe value (thresholds "oversold") then
      [{ type := "OVERSOLD_BREADTH"
         urgency := .MEDIUM
         message := "📉 SEVERE OVERSOLD: McClellan at " ++ toFixed rt value 0 ++ " - Start deploying cash"
         recommendation := "Deploy first 25% of cash reserves"
         emoji := "📉" }]
    else []

/-- Method `checkPutCallAlerts`. -/
def checkPutCallAlerts (rt : Runtime) (value : Option ℚ) :
    Option Thresholds → Except JSError (List RawAlert)
  | none => .error .typeError
  | some thresholds => .ok <|
    if jsGe value (thresholds "extreme") then
      [{ type := "MAXIMUM_PESSIMISM"
         urgency := .HIGH
         message := "🎯 MAXIMUM PESSIMISM: Put/Call at " ++ toFixed rt value 2 ++ " - Deploy all cash!"
         recommendation := "Maximum buying opportunity - deploy all remaining reserves"
         emoji := "🎯" }]
    else if jsGe value (thresholds "panic") then
      [{ type := "PANIC_SELLING"
         urgency := .HIGH
         message := "💥 PANIC SELLING: Put/Call at " ++ toFixed rt value 2 ++ " - Major buying opportunity"
         recommendation := "Deploy 50% of remaining cash reserves"
         emoji := "💥" }]
    else if jsGe value (thresholds "fear") then
      [{ type := "FEAR_BUILDING"
         urgency := .MEDIUM
         message := "😰 FEAR BUILDING: Put/Call at " ++ toFixed rt value 2 ++ " - Prepare for opportunities"
         recommendation := "Ready cash for deployment, increase monitoring"
         emoji := "😰" }]
    else []

/-- Method `checkRSIAlerts`. -/
def checkRSIAlerts (rt : Runtime) (value : Option ℚ) :
    Option Thresholds → Except JSError (List RawAlert)
  | none => .error .typeError
  | some thresholds => .ok <|
    if jsLe value (thresholds "extreme") then
      [{ type := "EXTREME_OVERSOLD_RSI"
         urgency := .HIGH
         message := "⚡ EXTREME OVERSOLD: S&P RSI at " ++ toFixed rt value 1 ++ " - Strong buy signal!"
         recommendation := "Deploy 50% of cash reserves immediately"
         emoji := "⚡" }]
    else if jsLe value (thresholds "oversold") then
      [{ type := "OVERSOLD_RSI"
         urgency := .MEDIUM
         message := "📊 OVERSOLD: S&P RSI at " ++ toFixed rt value 1 ++ " - Buying opportunity emerging"
         recommendation := "Deploy 25% of cash reserves"
         emoji := "📊" }]
    else []

/-- Method `checkHighLowAlerts`. -/
def checkHighLowAlerts (rt : Runtime) (value : Option ℚ) :
    Option Thresholds → Except JSError (List RawAlert)
  | none => .error .typeError
  | some thresholds => .ok <|
    if jsLe value (thresholds "capitulation") then
      [{ type := "HIGH_LOW_CAPITULATION"
         urgency := .HIGH
         message := "🏁 CAPITULATION: High-Low Index at " ++ toFixed rt value 2 ++ " - Maximum buying opportunity"
         recommendation := "Deploy all remaining cash immediately"
         emoji := "🏁" }]
    else if jsLe value (thresholds "weakness") then
      [{ type := "BROAD_WEAKNESS"
         urgency := .MEDIUM
         message := "📉 BROAD WEAKNESS: High-Low Index at " ++ toFixed rt value 2 ++ " - Prepare for opportunities"
         recommendation := "Ready cash for deployment, severe weakness detected"
         emoji := "📉" }]
    else []

/-- Method `checkFearGreedAlerts`. -/
def checkFearGreedAlerts (rt : Runtime) (value : Option ℚ) :
    Option Thresholds → Except JSError (List RawAlert)
  | none => .error .typeError
  | some thresholds => .ok <|
    if jsLe value (thresholds "fear") then
      [{ type := "EXTREME_FEAR"
         urgency := .HIGH
         message := "😱 EXTREME FEAR: Fear & Greed at " ++ numToString rt value ++ " - Maximum buying opportunity!"
         recommendation := "Deploy maximum cash - everyone else is selling in panic"
         emoji := "😱" }]
    else if jsGe value (thresholds "greed") then
      [{ type := "EXTREME_GREED"
         urgency := .MEDIUM
         message := "🤑 EXTREME GREED: Fear & Greed at " ++ numToString rt value ++ " - Danger zone!"
         recommendation := "Maintain maximum cash position, avoid buying"
         emoji := "🤑" }]
    else []

/-- Method `checkAAIIAlerts`. -/
def checkAAIIAlerts (rt : Runtime) (metricName : String) (value : Option ℚ) :
    Option Thresholds → Except JSError (List RawAlert)
  | none => if metricName = "aaiiBulls" ∨ metricName = "aaiiBears" then .error .typeError else .ok []
  | some thresholds => .ok <|
    if metricName = "aaiiBulls" && jsGt value (thresholds "danger") then
      [{ type := "EXCESSIVE_BULLISHNESS"
         urgency := .MEDIUM
         message := "🐂 EXCESSIVE BULLISHNESS: AAII Bulls at " ++ toFixed rt value 1 ++ "% - Danger zone"
         recommendation := "Too much optimism - maintain defensive positioning"
         emoji := "🐂" }]
    else if metricName = "aaiiBears" && jsGt value (thresholds "major") then
      [{ type := "MAJOR_BUYING_OPPORTUNITY"
         urgency := .HIGH
         message := "🐻 MAJOR OPPORTUNITY: AAII Bears at " ++ toFixed rt value 1 ++ "% - Excessive pessimism!"
         recommendation := "Major buying opportunity - deploy significant cash"
         emoji := "🐻" }]
    else if metricName = "aaiiBears" && jsGt value (thresholds "opportunity") then
      [{ type := "BUYING_OPPORTUNITY"
         urgency := .MEDIUM
         message := "🎪 BUYING OPPORTUNITY: AAII Bears at " ++ toFixed rt value 1 ++ "% - Excessive pessimism"
         recommendation := "Good buying opportunity emerging"
         emoji := "🎪" }]
    else []

/-- Method `checkInsiderAlerts`. -/
def checkInsiderAlerts (rt : Runtime) (value : Option ℚ) :
    Option Thresholds → Except JSError (List RawAlert)
  | none => .error .typeError
  | some thresholds => .ok <|
    if jsGe value (thresholds "strong") then
      [{ type := "STRONG_INSIDER_BUYING"
         urgency := .HIGH
         message := "👔 STRONG INSIDER CONFIDENCE: Buy/Sell ratio at " ++ toFixed rt value 1 ++ " - Major buying opportunity!"
         recommendation := "Insiders buying heavily - follow their lead"
         emoji := "👔" }]
    else if jsGe value (thresholds "bullish") then
      [{ type := "INSIDER_BUYING"
         urgency := .MEDIUM
         message := "💼 INSIDER BUYING: Buy/Sell ratio at " ++ toFixed rt value 1 ++ " - Bullish signal"
         recommendation := "Corporate insiders are buying - positive signal"
         emoji := "💼" }]
    else []

/-- Method `checkYieldSpreadAlerts`. -/
def checkYieldSpreadAlerts (rt : Runtime) (value : Option ℚ) :
    Option Thresholds → Except JSError (List RawAlert)
  | none => .error .typeError
  | some thresholds => .ok <|
    if jsLe value (thresholds "recession") then
      [{ type := "DEEP_INVERSION"
         urgency := .HIGH
         message := "📉 DEEP YIELD CURVE INVERSION: Spread at " ++ toFixed rt value 2 ++ "% - Recession signal"
         recommendation := "Prepare for recession and buying opportunities"
         emoji := "📉" }]
    else if jsLe value (thresholds "inversion") then
      [{ type := "YIELD_INVERSION"
         urgency := .MEDIUM
         message := "⚠️ YIELD CURVE INVERSION: Spread at " ++ toFixed rt value 2 ++ "% - Warning signal"
         recommendation := "Monitor closely - recession typically follows 6-18 months"
         emoji := "⚠️" }]
    else []

/-- Method `checkCreditSpreadAlerts`. -/
def checkCreditSpreadAlerts (rt : Runtime) (value : Option ℚ) :
    Option Thresholds → Except JSError (List RawAlert)
  | none => .error .typeError
  | some thresholds => .ok <|
    if jsGe value (thresholds "crisis") then
      [{ type := "CREDIT_CRISIS"
         urgency := .HIGH
         message := "🏦 CREDIT CRISIS: Spreads at " ++ numToString rt value ++ "bp - Financial stress detected!"
         recommendation := "Major buying opportunity - credit crisis creates bargains"
         emoji := "🏦" }]
    else if jsGe value (thresholds "stress") then
      [{ type := "CREDIT_STRESS"
         urgency := .MEDIUM
         message := "💳 CREDIT STRESS: Spreads at " ++ numToString rt value ++ "bp - Stress building"
         recommendation := "Monitor credit markets closely"
         emoji := "💳" }]
    else []

/-- Method `checkDollarAlerts`. -/
def checkDollarAlerts (rt : Runtime) (value : Option ℚ) :
    Option Thresholds → Except JSError (List RawAlert)
  | none => .error .typeError
  | some thresholds => .ok <|
    if jsGe value (thresholds "strong") then
      [{ type := "EXTREME_DOLLAR_STRENGTH"
         urgency := .MEDIUM
         message := "💵 EXTREME DOLLAR STRENGTH: DXY at " ++ toFixed rt value 1 ++ " - Emerging market stress"
         recommendation := "Avoid emerging markets, focus on US assets"
         emoji := "💵" }]
    else if jsLe value (thresholds "weak") then
      [{ type := "DOLLAR_WEAKNESS"
         urgency := .LOW
         message := "🌍 DOLLAR WEAKNESS: DXY at " ++ toFixed rt value 1 ++ " - Emerging markets attractive"
         recommendation := "Consider emerging market opportunities"
         emoji := "🌍" }]
    else []

/-- Method `checkNVDAPEAlerts`. -/
def checkNVDAPEAlerts (_rt : Runtime) (_value : Option ℚ) (_thresholds : Option Thresholds) :
    Except JSError (List RawAlert) :=
  .ok []

/-- Method `checkSemiETFAlerts`. -/
def checkSemiETFAlerts (rt : Runtime) (value : Option ℚ) :
    Option Thresholds → Except JSError (List RawAlert)
  | none => .error .typeError
  | some thresholds => .ok <|
    if jsLe value (thresholds "opportunity") then
      [{ type := "AI_BUBBLE_OPPORTUNITY"
         urgency := .HIGH
         message := "🤖 AI CRASH OPPORTUNITY: Semi ETF down " ++ toFixed rt (value.map fun v => |v * 100|) 1 ++ "% - Buying opportunity!"
         recommendation := "AI bubble deflating - buy quality tech at discount"
         emoji := "🤖" }]
    else if jsLe value (thresholds "correction") then
      [{ type := "AI_CORRECTION"
         urgency := .MEDIUM
         message := "🔧 AI CORRECTION: Semi ETF down " ++ toFixed rt (value.map fun v => |v * 100|) 1 ++ "% - Correction beginning"
         recommendation := "AI sector correcting - prepare for opportunities"
         emoji := "🔧" }]
    else []


/-- Method `evaluateMetric`; `clock` is read for the `timestamp` field. -/
def evaluateMetric (rt : Runtime) (clock : Clock) (metricName : String) (data : MetricData) :
    Except JSError (List Alert) :=
  match data.config with
  | none => .error .typeError
  | some config =>
    let value := data.value
    let thresholds := config.thresholds
    let alerts : Except JSError (List RawAlert) :=
      match metricName with
      | "vix" => checkVIXAlerts rt value thresholds
      | "vixTermStructure" => checkVIXTermStructureAlerts rt value thresholds
      | "cape" => checkCAPEAlerts rt value thresholds
      | "marginDebt" => checkMarginDebtAlerts rt value thresholds
      | "mcclellanOscillator" => checkMcclellanAlerts rt value thresholds
      | "putCallRatio" => checkPutCallAlerts rt value thresholds
      | "spyRsi" => checkRSIAlerts rt value thresholds
      | "highLowIndex" => checkHighLowAlerts rt value thresholds
      | "fearGreedIndex" => checkFearGreedAlerts rt value thresholds
      | "aaiiBulls" => checkAAIIAlerts rt metricName value thresholds
      | "aaiiBears" => checkAAIIAlerts rt metricName value thresholds
      | "insiderRatio" => checkInsiderAlerts rt value thresholds
      | "yieldSpread" => checkYieldSpreadAlerts rt value thresholds
      | "creditSpreads" => checkCreditSpreadAlerts rt value thresholds
      | "dollarIndex" => checkDollarAlerts rt value thresholds
      | "nvdaPE" => checkNVDAPEAlerts rt value thresholds
      | "semiETF" => checkSemiETFAlerts rt value thresholds
      | _ => .ok []
    match alerts with
    | .error e => .error e
    | .ok alerts =>
      .ok (alerts.map fun alert =>
        { type := alert.type
          urgency := alert.urgency
          message := alert.message
          recommendation := alert.recommendation
          emoji := alert.emoji
          metricName := metricName
          timestamp := clock.iso
          value := value })

/-! ## Message formatting -/

/-- The white space and line terminator characters removed by `String.prototype.trim`. -/
def isJSWhiteSpace (c : Char) : Bool :=
  c.val = 0x09 || c.val = 0x0A || c.val = 0x0B || c.val = 0x0C || c.val = 0x0D ||
  c.val = 0x20 || c.val = 0xA0 || c.val = 0x1680 || (0x2000 ≤ c.val && c.val ≤ 0x200A) ||
  c.val = 0x2028 || c.val = 0x2029 || c.val = 0x202F || c.val = 0x205F || c.val = 0x3000 ||
  c.val = 0xFEFF

/-- Method `String.prototype.trim`. -/
def jsTrim (s : String) : String :=
  String.mk ((s.data.dropWhile isJSWhiteSpace).reverse.dropWhile isJSWhiteSpace).reverse

/-- Method `formatAlertMessage`; `clock` is read for the time label. -/
def formatAlertMessage (rt : Runtime) (clock : Clock) (alert : Alert) : String :=
  let timestamp := clock.timeLabel
  jsTrim ("\n" ++ alert.emoji ++ " <b>" ++ alert.message ++ "</b>\n\n" ++
    "📊 <b>Metric:</b> " ++ rt.toUpperCase alert.metricName ++ "\n" ++
    "💰 <b>Current Value:</b> " ++ numToString rt alert.value ++ "\n" ++
    "📈 <b>Recommendation:</b> " ++ alert.recommendation ++ "\n\n" ++
    "<i>⏰ " ++ timestamp ++ "</i>\n        ")

/-- The loop `alerts.forEach((alert, index) => …)` of `formatUrgentAlert`, from `index`. -/
def urgentLines (message : String) (index : Nat) : List Alert → String
  | [] => message
  | alert :: rest =>
    urgentLines
      (message ++ (toString (index + 1) ++ ". " ++ alert.emoji ++ " " ++ alert.message ++ "\n"))
      (index + 1) rest

/-- Method `formatUrgentAlert`; `clock` is read for the time label. -/
def formatUrgentAlert (clock : Clock) (alerts : List Alert) : String :=
  let timestamp := clock.timeLabel
  let message := "🚨 <b>URGENT MARKET ALERT</b> 🚨\n\n"
  let message := message ++ "<b>Multiple high-urgency signals detected:</b>\n\n"
  let message := urgentLines message 0 alerts
  let message := message ++ "\n⚠️ <b>IMMEDIATE ACTION REQUIRED</b> ⚠️\n"
  let message := message ++ ("<i>⏰ " ++ timestamp ++ "</i>")
  message

/-! ## Dispatch -/

/-- The state of an `AlertService` together with the log of the chat transport. -/
structure Service where
  /-- The field `alertHistory`. -/
  alertHistory : AlertHistory
  /-- The texts passed to `bot.telegram.sendMessage`, in call order. -/
  sent : List String

/-- The chat transport: whether `sendMessage` resolves for a text. -/
abbrev Transport := String → Bool

/-- Method `sendAlert`.  The clock `before` is read up to the call of the transport,
`after` once the `await` has returned. -/
def sendAlert (rt : Runtime) (send : Transport) (before after : Clock) (s : Service)
    (alert : Alert) : Bool × Service :=
  if !shouldSendAlert s.alertHistory before.now alert then
    (false, s)
  else
    let message := formatAlertMessage rt before alert
    let s := { s with sent := s.sent ++ [message] }
    if send message then
      (true, { s with alertHistory := recordAlert s.alertHistory after.now alert })
    else
      (false, s)

/-- Method `sendUrgentAlert`: both outcomes of the transport only write to the logger. -/
def sendUrgentAlert (send : Transport) (clock : Clock) (s : Service) (alerts : List Alert) :
    Service :=
  let urgentMessage := formatUrgentAlert clock alerts
  let s := { s with sent := s.sent ++ [urgentMessage] }
  if send urgentMessage then s else s

/-- Whether the `error` field of a snapshot entry is truthy. -/
def hasError (data : MetricData) : Bool :=
  match data.error with
  | none => false
  | some e => e ≠ ""

/-- The `for` loop of `checkAlerts`: a raising `evaluateMetric` aborts the loop. -/
def collectAlerts (rt : Runtime) (clock : Clock) : Snapshot → Except JSError (List Alert)
  | [] => .ok []
  | (metricName, data) :: rest =>
    if hasError data then collectAlerts rt clock rest
    else
      match evaluateMetric rt clock metricName data with
      | .error e => .error e
      | .ok metricAlerts =>
        match collectAlerts rt clock rest with
        | .error e => .error e
        | .ok alerts => .ok (metricAlerts ++ alerts)

/-- Method `checkAlerts`: the returned candidates and the state after the urgent send. -/
def checkAlerts (rt : Runtime) (send : Transport) (clock : Clock) (s : Service)
    (metrics : Snapshot) : List Alert × Service :=
  match collectAlerts rt clock metrics with
  | .error _ => ([], s)
  | .ok alerts =>
    let urgentAlerts := alerts.filter fun alert => alert.urgency = .HIGH
    if urgentAlerts.length > 0 then
      (alerts, sendUrgentAlert send clock s urgentAlerts)
    else
      (alerts, s)

/-- The loop `for (const alert of alerts) await sendAlert(alert)` of `performMarketCheck`;
`clocks i` holds the two clock readings of iteration `i`. -/
def sendAll (rt : Runtime) (send : Transport) (clocks : Nat → Clock × Clock) (i : Nat)
    (s : Service) : List Alert → Service
  | [] => s
  | alert :: rest =>
    sendAll rt send clocks (i + 1) (sendAlert rt send (clocks i).1 (clocks i).2 s alert).2 rest

/-- Method `MarketBot.performMarketCheck` on the snapshot `metrics` returned by
`getAllMetrics`; `clock` is read during `checkAlerts`. -/
def performMarketCheck (rt : Runtime) (send : Transport) (clock : Clock)
    (clocks : Nat → Clock × Clock) (s : Service) (metrics : Snapshot) : Service :=
  let r := checkAlerts rt send clock s metrics
  sendAll rt send clocks 0 r.2 r.1

/-! ## A sample runtime, for evaluating the model on concrete inputs -/

/-- The digits of `n` padded on the left with zeros to at least `width` characters. -/
def padDigits (width n : Nat) : List Char :=
  let ds := (Nat.toDigits 10 n)
  List.replicate (width - ds.length) '0' ++ ds

/-- The decimal text of a rational rounded to `d` places, ties away from zero.  It is
the text of `toFixed` for a number below `10^21` whose binary floating-point value is
that rational (integers and fractions with a power of two as denominator); for other
decimals JavaScript rounds the nearest floating-point value, which may differ in the
last digit. -/
def toFixedRat (x : ℚ) (d : Nat) : String :=
  let n : Nat := (|x| * 10 ^ d + 1 / 2).floor.toNat
  let ds := padDigits (d + 1) n
  let whole := ds.take (ds.length - d)
  let frac := ds.drop (ds.length - d)
  String.mk ((if x < 0 then ['-'] else []) ++ whole ++ (if d = 0 then [] else '.' :: frac))

/-- The least number of decimal places, searched from `k` with `fuel` steps, at which
`x` is written exactly. -/
def decimalPlaces (x : ℚ) : Nat → Nat → Nat
  | 0, k => k
  | fuel + 1, k => if (x * 10 ^ k).den = 1 then k else decimalPlaces x fuel (k + 1)

/-- A runtime for evaluating the model on the sample inputs.  It prints a number from
its exact rational value and maps ASCII letters to upper case; it agrees with JavaScript
on the sample inputs and, more generally, on integers and fractions with a power of two
as denominator below `10^21`, not on every number. -/
def sampleRuntime : Runtime where
  toFixed := toFixedRat
  numToString x := toFixedRat x (decimalPlaces x 20 0)
  toUpperCase s := String.mk (s.data.map Char.toUpper)

/-! ## Auxiliary notions for stating the properties -/

namespace AlertHistory

/-- The keys of the map, in insertion order. -/
def keys (h : AlertHistory) : List String := h.map Prod.fst

/-- The store invariant: keys are unique and at most 100 entries are held. -/
def WellFormed (h : AlertHistory) : Prop := (keys h).Nodup ∧ h.length ≤ 100

end AlertHistory

/-- The store after a sequence of `recordAlert` calls, each with its clock reading. -/
def recordAll (calls : List (Int × Alert)) (h : AlertHistory) : AlertHistory :=
  calls.foldl (fun h c => recordAlert h c.1 c.2) h

/-- The store entry written by a `recordAlert` call. -/
def entryOf (c : Int × Alert) : String × Int := (alertKey c.2, c.1)

/-- The cooldown window of the specification for a severity: `C/2`, `C`, `2·C`. -/
def cooldownWindow : Urgency → Int
  | .HIGH => cooldownPeriod / 2
  | .MEDIUM => cooldownPeriod
  | .LOW => 2 * cooldownPeriod

/-! ## Sample inputs, for evaluating the model -/

/-- A clock reading at time `t` with fixed labels. -/
def sampleClock (t : Int) : Clock :=
  { now := t, iso := "2025-01-01T00:00:00.000Z", timeLabel := "12:00:00 PM" }

/-- The clock readings of the iterations of the dispatch loop. -/
def sampleClocks (i : Nat) : Clock × Clock :=
  (sampleClock (2000 + i), sampleClock (2500 + i))

/-- The VIX thresholds of `marketData.js`. -/
def sampleVixThresholds : Thresholds := fun k =>
  if k = "warning" then some 20 else if k = "danger" then some 30
  else if k = "panic" then some 40 else none

/-- The put/call thresholds of `marketData.js`. -/
def samplePutCallThresholds : Thresholds := fun k =>
  if k = "fear" then some 1 else if k = "panic" then some (3 / 2)
  else if k = "extreme" then some 2 else none

/-- A snapshot with a single metric, VIX at 42. -/
def sampleSingleSnapshot : Snapshot :=
  [("vix", { value := some 42, error := none, config := some ⟨some sampleVixThresholds⟩ })]

/-- A snapshot with two metrics in their top tier: VIX at 42 and put/call at 2.5. -/
def sampleSnapshot : Snapshot :=
  [("vix", { value := some 42, error := none, config := some ⟨some sampleVixThresholds⟩ }),
   ("putCallRatio",
     { value := some (5 / 2), error := none, config := some ⟨some samplePutCallThresholds⟩ })]

/-- A transport whose `sendMessage` always resolves. -/
def okTransport : Transport := fun _ => true

/-- A transport whose `sendMessage` always rejects. -/
def failTransport : Transport := fun _ => false

/-- The service right after construction. -/
def emptyService : Service := { alertHistory := [], sent := [] }

/-- The candidate that `evaluateMetric` returns for VIX at 42. -/
def sampleAlert : Alert :=
  { type := "PANIC_BUYING_OPPORTUNITY"
    urgency := .HIGH
    message := "🚨 MAXIMUM CRASH BUYING OPPORTUNITY! VIX at 42.0 - Deploy ALL remaining cash!"
    recommendation := "Deploy remaining 50% cash immediately into quality assets"
    emoji := "🔴⚫"
    metricName := "vix"
    timestamp := "2025-01-01T00:00:00.000Z"
    value := some 42 }

/-- The candidate that `evaluateMetric` returns for put/call at 2.5. -/
def samplePutCallAlert : Alert :=
  { type := "MAXIMUM_PESSIMISM"
    urgency := .HIGH
    message := "🎯 MAXIMUM PESSIMISM: Put/Call at 2.50 - Deploy all cash!"
    recommendation := "Maximum buying opportunity - deploy all remaining reserves"
    emoji := "🎯"
    metricName := "putCallRatio"
    timestamp := "2025-01-01T00:00:00.000Z"
    value := some (5 / 2) }

/-- The service after one dispatch of the VIX candidate at time 1000. -/
def recentService : Service :=
  { alertHistory := recordAlert [] 1000 sampleAlert, sent := [] }

/-- A sequence of 101 `recordAlert` calls with pairwise distinct keys. -/
def sampleCalls : List (Int × Alert) :=
  (List.range 101).map fun i => ((1000 + i : Int), { sampleAlert with type := toString i })

/-! ## Auxiliary notions for the classifier properties -/

/-- The types and urgencies of the candidates in a classifier result, `none` when the
classifier raised. -/
def kinds (r : Except JSError (List RawAlert)) : Option (List (String × Urgency)) :=
  match r with
  | .ok alerts => some (alerts.map fun a => (a.type, a.urgency))
  | .error _ => none

/-- The types and urgencies of the candidates returned by `evaluateMetric`, `none` when
it raised. -/
def alertKinds (r : Except JSError (List Alert)) : Option (List (String × Urgency)) :=
  match r with
  | .ok alerts => some (alerts.map fun a => (a.type, a.urgency))
  | .error _ => none

/-- The first test of the cascade of each family that reads its thresholds: the test
of the family's most severe tier. -/
def topTierTest (metricName : String) (value : Option ℚ) (thresholds : Thresholds) : Bool :=
  match metricName with
  | "vix" => jsGe value (thresholds "panic")
  | "cape" => jsGt value (thresholds "bubble")
  | "mcclellanOscillator" => jsLe value (thresholds "capitulation")
  | "putCallRatio" => jsGe value (thresholds "extreme")
  | "spyRsi" => jsLe value (thresholds "extreme")
  | "highLowIndex" => jsLe value (thresholds "capitulation")
  | "fearGreedIndex" => jsLe value (thresholds "fear")
  | "aaiiBulls" => jsGt value (thresholds "danger")
  | "aaiiBears" => jsGt value (thresholds "major")
  | "insiderRatio" => jsGe value (thresholds "strong")
  | "yieldSpread" => jsLe value (thresholds "recession")
  | "creditSpreads" => jsGe value (thresholds "crisis")
  | "dollarIndex" => jsGe value (thresholds "strong")
  | "semiETF" => jsLe value (thresholds "opportunity")
  | _ => false

/-- The metric names whose `check…Alerts` function reads a property of `thresholds`. -/
def readsThresholds (metricName : String) : Bool :=
  metricName ∈ ["vix", "cape", "mcclellanOscillator", "putCallRatio", "spyRsi",
    "highLowIndex", "fearGreedIndex", "aaiiBulls", "aaiiBears", "insiderRatio",
    "yieldSpread", "creditSpreads", "dollarIndex", "semiETF"]

/-- The CAPE thresholds of `marketData.js`. -/
def sampleCapeThresholds : Thresholds := fun k =>
  if k = "overvalued" then some 25 else if k = "bubble" then some 35 else none

/-- The credit-spread thresholds of `marketData.js`. -/
def sampleCreditThresholds : Thresholds := fun k =>
  if k = "stress" then some 200 else if k = "crisis" then some 300 else none

/-- The RSI thresholds of `marketData.js`. -/
def sampleRsiThresholds : Thresholds := fun k =>
  if k = "oversold" then some 30 else if k = "extreme" then some 20 else none

/-- The McClellan thresholds of `marketData.js`. -/
def sampleMcclellanThresholds : Thresholds := fun k =>
  if k = "oversold" then some (-100) else if k = "capitulation" then some (-150) else none

/-- The Fear and Greed thresholds of `marketData.js`. -/
def sampleFearGreedThresholds : Thresholds := fun k =>
  if k = "fear" then some 20 else if k = "greed" then some 80 else none

/-- The High-Low thresholds of `marketData.js`. -/
def sampleHighLowThresholds : Thresholds := fun k =>
  if k = "weakness" then some (-1 / 2) else if k = "capitulation" then some (-4 / 5)
  else none

/-- The yield-spread thresholds of `marketData.js`. -/
def sampleYieldSpreadThresholds : Thresholds := fun k =>
  if k = "inversion" then some 0 else if k = "recession" then some (-1 / 2) else none

/-- A snapshot entry for VIX at 42 whose config has no thresholds. -/
def sampleNoThresholds : MetricData :=
  { value := some 42, error := none, config := some ⟨none⟩ }

/-- A snapshot with VIX at 42 and a CAPE reading whose config has no thresholds. -/
def sampleFailingSnapshot : Snapshot :=
  [("vix", { value := some 42, error := none, config := some ⟨some sampleVixThresholds⟩ }),
   ("cape", { value := some 40, error := none, config := some ⟨none⟩ })]

/-- A snapshot with VIX at 42 and an RSI entry carrying an error, as `getAllMetrics`
records a failed fetch. -/
def sampleErrorSnapshot : Snapshot :=
  [("vix", { value := some 42, error := none, config := some ⟨some sampleVixThresholds⟩ }),
   ("spyRsi", { value := none, error := some "RSI data not available",
                config := some ⟨some sampleRsiThresholds⟩ })]

/-! ## Auxiliary notions for the remaining properties -/

deriving instance DecidableEq for Except

/-- The candidate with its `timestamp` field replaced. -/
def withTimestamp (t : String) (a : Alert) : Alert := { a with timestamp := t }

/-- The rank of an urgency: LOW, MEDIUM, HIGH are 1, 2, 3. -/
def urgencyRank : Urgency → Nat
  | .LOW => 1
  | .MEDIUM => 2
  | .HIGH => 3

/-- The severity rank of a classifier result: 0 for no candidate, else the rank of
the first candidate. -/
def severityRank (r : Except JSError (List RawAlert)) : Nat :=
  match r with
  | .ok (a :: _) => urgencyRank a.urgency
  | _ => 0

/-- A store in which the key of the VIX candidate maps to the timestamp 0. -/
def zeroStore : AlertHistory := [("vix_PANIC_BUYING_OPPORTUNITY", 0)]

/-- The values returned by the `sendAlert` calls of the dispatch loop, in loop order
(`performMarketCheck` awaits and discards them). -/
def sendAllResults (rt : Runtime) (send : Transport) (clocks : Nat → Clock × Clock) (i : Nat)
    (s : Service) : List Alert → List Bool
  | [] => []
  | alert :: rest =>
    (sendAlert rt send (clocks i).1 (clocks i).2 s alert).1 ::
      sendAllResults rt send clocks (i + 1)
        (sendAlert rt send (clocks i).1 (clocks i).2 s alert).2 rest

/-- The line that `formatUrgentAlert` appends for the candidate at position `index`. -/
def urgentLineOf (index : Nat) (alert : Alert) : String :=
  toString (index + 1) ++ ". " ++ alert.emoji ++ " " ++ alert.message ++ "\n"

/-- The lines that `formatUrgentAlert` appends for a list of candidates, the first at
position `index`. -/
def urgentLineList (index : Nat) : List Alert → List String
  | [] => []
  | alert :: rest => urgentLineOf index alert :: urgentLineList (index + 1) rest

/-- The concatenation of a list of strings. -/
def concatLines : List String → String
  | [] => ""
  | line :: rest => line ++ concatLines rest

/-- A transport that rejects the individual notification of the VIX candidate and
resolves for every other text. -/
def sampleFlakyTransport : Transport := fun text =>
  decide (text ≠ formatAlertMessage sampleRuntime (sampleClocks 0).1 sampleAlert)

/-- The candidate whose key is the oldest of the store left by `sampleCalls`. -/
def sampleOldest : Alert := { sampleAlert with type := "1" }

/-- The candidate that `evaluateMetric` returns for VIX at 45. -/
def sampleAlert45 : Alert :=
  { sampleAlert with
    message := "🚨 MAXIMUM CRASH BUYING OPPORTUNITY! VIX at 45.0 - Deploy ALL remaining cash!"
    value := some 45 }

/-- The reading of VIX at `v` with the thresholds of `marketData.js`. -/
def sampleVixData (v : ℚ) : MetricData :=
  { value := some v, error := none, config := some ⟨some sampleVixThresholds⟩ }

/-- A clock reading half an hour after `sampleClock 1000`. -/
def sampleLaterClock : Clock :=
  { now := 1801000, iso := "2025-01-01T00:30:00.000Z", timeLabel := "12:30:00 PM" }

/-! ## Lemmas on the cooldown store -/

namespace AlertHistory

theorem get_eq_none_of_not_mem (h : AlertHistory) (k : String) (hk : k ∉ keys h) :
    get h k = none := by
  induction h with
  | nil => rfl
  | cons e rest ih =>
    obtain ⟨k', v⟩ := e
    simp only [keys, List.map_cons, List.mem_cons, not_or] at hk
    have hne : ¬ k' = k := fun hh => hk.1 hh.symm
    simp only [get, hne, if_false]
    exact ih hk.2

theorem get_of_mem (h : AlertHistory) (k : String) (v : Int) (hnd : (keys h).Nodup)
    (hm : (k, v) ∈ h) : get h k = some v := by
  induction h with
  | nil => cases hm
  | cons e rest ih =>
    obtain ⟨k', v'⟩ := e
    simp only [keys, List.map_cons, List.nodup_cons] at hnd
    rcases List.mem_cons.mp hm with heq | hin
    · cases heq
      simp [get]
    · have hne : ¬ k' = k := by
        intro hh
        subst hh
        exact hnd.1 (List.mem_map_of_mem Prod.fst hin)
      simp only [get, hne, if_false]
      exact ih hnd.2 hin

theorem get_set_self (h : AlertHistory) (k : String) (v : Int) : get (set h k v) k = some v := by
  induction h with
  | nil => simp [set, get]
  | cons e rest ih =>
    obtain ⟨k', v'⟩ := e
    by_cases hk : k' = k
    · simp [set, get, hk]
    · simp [set, get, hk, ih]

theorem get_set_ne (h : AlertHistory) (k k₂ : String) (v : Int) (hne : k₂ ≠ k) :
    get (set h k v) k₂ = get h k₂ := by
  induction h with
  | nil =>
    have : ¬ k = k₂ := fun hh => hne hh.symm
    simp [set, get, this]
  | cons e rest ih =>
    obtain ⟨k', v'⟩ := e
    by_cases hk : k' = k
    · subst hk
      have : ¬ k' = k₂ := fun hh => hne hh.symm
      simp [set, get, this]
    · by_cases hk2 : k' = k₂
      · subst hk2
        simp [set, get, hk]
      · simp [set, get, hk, hk2, ih]

theorem set_of_not_mem (h : AlertHistory) (k : String) (v : Int) (hk : k ∉ keys h) :
    set h k v = h ++ [(k, v)] := by
  induction h with
  | nil => rfl
  | cons e rest ih =>
    obtain ⟨k', v'⟩ := e
    simp only [keys, List.map_cons, List.mem_cons, not_or] at hk
    have hne : ¬ k' = k := fun hh => hk.1 hh.symm
    simp only [set, hne, if_false, List.cons_append]
    rw [ih hk.2]

theorem keys_set_of_mem (h : AlertHistory) (k : String) (v : Int) (hk : k ∈ keys h) :
    keys (set h k v) = keys h := by
  induction h with
  | nil => cases hk
  | cons e rest ih =>
    obtain ⟨k', v'⟩ := e
    by_cases hke : k' = k
    · simp [set, keys, hke]
    · have hin : k ∈ keys rest := by
        simp only [keys, List.map_cons, List.mem_cons] at hk
        rcases hk with h1 | h2
        · exact absurd h1.symm hke
        · exact h2
      have := ih hin
      simp only [keys] at this
      simp [set, keys, hke, this]

theorem get_delete (h : AlertHistory) (k k₂ : String) :
    get (delete h k) k₂ = if k₂ = k then none else get h k₂ := by
  induction h with
  | nil => simp [delete, get]
  | cons e rest ih =>
    obtain ⟨k', v'⟩ := e
    simp only [delete, ne_eq, decide_not] at ih ⊢
    by_cases hk : k' = k
    · subst hk
      by_cases hk2 : k₂ = k'
      · subst hk2
        simpa [get] using ih
      · have : ¬ k' = k₂ := fun hh => hk2 hh.symm
        simpa [get, hk2, this] using ih
    · by_cases hk2 : k₂ = k
      · subst hk2
        simpa [get, hk, List.filter_cons] using ih
      · by_cases hk3 : k' = k₂
        · simp [get, hk, hk2, hk3, List.filter_cons]
        · simpa [get, hk, hk2, hk3, List.filter_cons] using ih

theorem delete_head (k : String) (v : Int) (rest : AlertHistory)
    (hnd : (keys ((k, v) :: rest)).Nodup) : delete ((k, v) :: rest) k = rest := by
  simp only [keys, List.map_cons, List.nodup_cons] at hnd
  simp only [delete, List.filter_cons, ne_eq, not_true_eq_false, decide_False]
  simp only [Bool.false_eq_true, if_false]
  apply List.filter_eq_self.mpr
  intro e he
  have : e.1 ≠ k := fun hh => hnd.1 (hh ▸ List.mem_map_of_mem Prod.fst he)
  simpa using this

theorem length_set_of_mem (h : AlertHistory) (k : String) (v : Int) (hk : k ∈ keys h) :
    (set h k v).length = h.length := by
  have := congrArg List.length (keys_set_of_mem h k v hk)
  simpa [keys] using this

end AlertHistory

open AlertHistory

theorem recordAlert_of_mem (h : AlertHistory) (now : Int) (a : Alert)
    (hk : alertKey a ∈ keys h) (hlen : h.length ≤ 100) :
    recordAlert h now a = h.set (alertKey a) now := by
  have hl := length_set_of_mem h (alertKey a) now hk
  have : ¬ (h.set (alertKey a) now).size > 100 := by
    simp only [size, hl]; omega
  simp only [recordAlert, this, if_false]

theorem recordAlert_of_not_mem_small (h : AlertHistory) (now : Int) (a : Alert)
    (hk : alertKey a ∉ keys h) (hlen : h.length < 100) :
    recordAlert h now a = h ++ [(alertKey a, now)] := by
  have hs := set_of_not_mem h (alertKey a) now hk
  have : ¬ (h.set (alertKey a) now).size > 100 := by
    simp only [size, hs, List.length_append, List.length_singleton]; omega
  simp only [recordAlert, this, if_false]
  exact hs

theorem recordAlert_of_not_mem_full (h : AlertHistory) (now : Int) (a : Alert)
    (hk : alertKey a ∉ keys h) (hnd : (keys h).Nodup) (hlen : h.length = 100) :
    recordAlert h now a = h.tail ++ [(alertKey a, now)] := by
  have hs := set_of_not_mem h (alertKey a) now hk
  have hgt : (h.set (alertKey a) now).size > 100 := by
    simp only [size, hs, List.length_append, List.length_singleton]; omega
  cases h with
  | nil => simp at hlen
  | cons e rest =>
    obtain ⟨k0, v0⟩ := e
    have hnd2 : (keys ((k0, v0) :: (rest ++ [(alertKey a, now)]))).Nodup := by
      simp only [keys, List.map_cons, List.map_append, List.map_nil] at hnd hk ⊢
      rw [← List.cons_append]
      refine List.Nodup.append hnd (List.nodup_singleton _) ?_
      intro x hx hx2
      rw [List.mem_singleton] at hx2
      subst hx2
      exact hk hx
    simp only [recordAlert, hgt, if_true]
    rw [hs]
    simp only [List.cons_append, firstKey, List.tail_cons]
    exact delete_head k0 v0 _ hnd2

theorem wellFormed_nil : WellFormed [] := by
  simp [WellFormed, keys]

theorem recordAlert_wellFormed (h : AlertHistory) (now : Int) (a : Alert) (hwf : WellFormed h) :
    WellFormed (recordAlert h now a) := by
  obtain ⟨hnd, hlen⟩ := hwf
  by_cases hk : alertKey a ∈ keys h
  · rw [recordAlert_of_mem h now a hk hlen]
    refine ⟨?_, ?_⟩
    · rw [keys_set_of_mem h _ now hk]; exact hnd
    · rw [length_set_of_mem h _ now hk]; exact hlen
  · have hnd2 : (keys (h ++ [(alertKey a, now)])).Nodup := by
      simp only [keys, List.map_append, List.map_cons, List.map_nil] at hnd hk ⊢
      refine List.Nodup.append hnd (List.nodup_singleton _) ?_
      intro x hx hx2
      rw [List.mem_singleton] at hx2
      subst hx2
      exact hk hx
    by_cases hfull : h.length < 100
    · rw [recordAlert_of_not_mem_small h now a hk hfull]
      refine ⟨hnd2, ?_⟩
      simp only [List.length_append, List.length_singleton]; omega
    · have heq : h.length = 100 := by omega
      rw [recordAlert_of_not_mem_full h now a hk hnd heq]
      cases h with
      | nil => simp at heq
      | cons e rest =>
        simp only [List.tail_cons]
        refine ⟨?_, ?_⟩
        · simp only [keys, List.cons_append, List.map_cons, List.nodup_cons] at hnd2
          exact hnd2.2
        · simp only [List.length_cons] at heq
          simp only [List.length_append, List.length_singleton]; omega

theorem recordAll_wellFormed (calls : List (Int × Alert)) (h : AlertHistory)
    (hwf : WellFormed h) : WellFormed (recordAll calls h) := by
  induction calls generalizing h with
  | nil => exact hwf
  | cons c rest ih =>
    simp only [recordAll, List.foldl_cons]
    exact ih _ (recordAlert_wellFormed h c.1 c.2 hwf)

theorem get_recordAlert_self (h : AlertHistory) (now : Int) (a : Alert) (hwf : WellFormed h) :
    (recordAlert h now a).get (alertKey a) = some now := by
  obtain ⟨hnd, hlen⟩ := hwf
  by_cases hk : alertKey a ∈ keys h
  · rw [recordAlert_of_mem h now a hk hlen]
    exact get_set_self h _ now
  · have hwf2 := recordAlert_wellFormed h now a ⟨hnd, hlen⟩
    apply get_of_mem _ _ _ hwf2.1
    by_cases hfull : h.length < 100
    · rw [recordAlert_of_not_mem_small h now a hk hfull]
      simp
    · rw [recordAlert_of_not_mem_full h now a hk hnd (by omega)]
      simp

theorem get_recordAlert_ne (h : AlertHistory) (now : Int) (a : Alert) (k : String)
    (hne : k ≠ alertKey a) :
    (recordAlert h now a).get k = h.get k ∨ (recordAlert h now a).get k = none := by
  unfold recordAlert
  simp only []
  split
  · split
    · rw [get_delete]
      split
      · exact Or.inr rfl
      · exact Or.inl (get_set_ne h _ k now hne)
    · exact Or.inl (get_set_ne h _ k now hne)
  · exact Or.inl (get_set_ne h _ k now hne)

theorem recordAll_append (xs ys : List (Int × Alert)) (h : AlertHistory) :
    recordAll (xs ++ ys) h = recordAll ys (recordAll xs h) := by
  simp [recordAll, List.foldl_append]

theorem recordAll_of_distinct (calls : List (Int × Alert)) (h : AlertHistory)
    (hnd : (keys h ++ calls.map fun c => alertKey c.2).Nodup)
    (hlen : h.length + calls.length ≤ 100) :
    recordAll calls h = h ++ calls.map entryOf := by
  induction calls generalizing h with
  | nil => simp [recordAll]
  | cons c rest ih =>
    have hk : alertKey c.2 ∉ keys h := by
      intro hin
      have := (List.nodup_append.mp hnd).2.2
      exact this hin (by simp)
    have hsmall : h.length < 100 := by
      simp only [List.length_cons] at hlen; omega
    have hstep := recordAlert_of_not_mem_small h c.1 c.2 hk hsmall
    have hnd2 : (keys (h ++ [(alertKey c.2, c.1)]) ++ rest.map fun c => alertKey c.2).Nodup := by
      simpa [keys, List.append_assoc] using hnd
    have hlen2 : (h ++ [(alertKey c.2, c.1)]).length + rest.length ≤ 100 := by
      simp only [List.length_cons] at hlen
      simp only [List.length_append, List.length_singleton]; omega
    have := ih (h ++ [(alertKey c.2, c.1)]) hnd2 hlen2
    simp only [recordAll, List.foldl_cons] at this ⊢
    rw [hstep, this]
    simp [entryOf]

theorem keys_map_entryOf (calls : List (Int × Alert)) :
    keys (calls.map entryOf) = calls.map fun c => alertKey c.2 := by
  simp [keys, entryOf, List.map_map, Function.comp_def]

theorem recordAll_101 (calls : List (Int × Alert)) (hlen : calls.length = 101)
    (hnd : (calls.map fun c => alertKey c.2).Nodup) :
    recordAll calls [] = calls.tail.map entryOf := by
  have hne : calls ≠ [] := by
    intro h; rw [h] at hlen; simp at hlen
  have hsplit := List.dropLast_append_getLast hne
  set init := calls.dropLast with hinit
  set last := calls.getLast hne with hlast
  have hinitlen : init.length = 100 := by
    rw [hinit, List.length_dropLast, hlen]
  rw [← hsplit] at hnd ⊢
  rw [List.map_append] at hnd
  have hnd' := List.nodup_append.mp hnd
  have h1 : recordAll init [] = init.map entryOf := by
    have := recordAll_of_distinct init [] (by simpa [keys] using hnd'.1) (by simp [hinitlen])
    simpa using this
  rw [recordAll_append, h1]
  have hk : alertKey last.2 ∉ keys (init.map entryOf) := by
    rw [keys_map_entryOf]
    intro hin
    exact hnd'.2.2 hin (by simp)
  have hfull := recordAlert_of_not_mem_full (init.map entryOf) last.1 last.2 hk
    (by rw [keys_map_entryOf]; exact hnd'.1) (by simp [hinitlen])
  simp only [recordAll, List.foldl_cons, List.foldl_nil]
  rw [hfull]
  obtain ⟨c, rest, hcr⟩ : ∃ c rest, init = c :: rest := by
    cases hi : init with
    | nil => rw [hi] at hinitlen; simp at hinitlen
    | cons c rest => exact ⟨c, rest, rfl⟩
  rw [hcr]
  simp [entryOf]

/-! ## Lemmas on classification and dispatch -/

theorem evaluateMetric_metricName (rt : Runtime) (clock : Clock) (name : String)
    (data : MetricData) (alerts : List Alert)
    (h : evaluateMetric rt clock name data = .ok alerts) :
    ∀ a ∈ alerts, a.metricName = name ∧ '_' ∉ name.data := by
  intro a ha
  unfold evaluateMetric at h
  split at h
  · cases h
  · simp only at h
    split at h
    · cases h
    · rename_i config hcfg raw hraw
      injection h with h
      subst h
      obtain ⟨r, hr, rfl⟩ := List.mem_map.mp ha
      refine ⟨rfl, ?_⟩
      split at hraw
      all_goals first
        | decide
        | (injection hraw with hraw; subst hraw; cases hr)

theorem collectAlerts_metricName (rt : Runtime) (clock : Clock) (metrics : Snapshot)
    (alerts : List Alert) (h : collectAlerts rt clock metrics = .ok alerts) :
    ∀ a ∈ alerts, '_' ∉ a.metricName.data := by
  induction metrics generalizing alerts with
  | nil =>
    simp only [collectAlerts] at h
    injection h with h
    subst h
    intro a ha
    cases ha
  | cons e rest ih =>
    obtain ⟨name, data⟩ := e
    simp only [collectAlerts] at h
    split at h
    · exact ih alerts h
    · split at h
      · cases h
      · rename_i metricAlerts hm
        split at h
        · cases h
        · rename_i restAlerts hr
          injection h with h
          subst h
          intro a ha
          rcases List.mem_append.mp ha with h1 | h2
          · obtain ⟨hn, hu⟩ := evaluateMetric_metricName rt clock name data metricAlerts hm a h1
            rw [hn]; exact hu
          · exact ih restAlerts hr a h2

theorem eq_of_append_sep (c : Char) (l₁ l₂ r₁ r₂ : List Char) (h₁ : c ∉ l₁)
    (h₂ : c ∉ l₂) (h : l₁ ++ c :: r₁ = l₂ ++ c :: r₂) : l₁ = l₂ := by
  induction l₁ generalizing l₂ with
  | nil =>
    cases l₂ with
    | nil => rfl
    | cons y ys =>
      simp only [List.nil_append, List.cons_append, List.cons.injEq] at h
      exact absurd (h.1 ▸ List.mem_cons_self _ _) h₂
  | cons x xs ih =>
    cases l₂ with
    | nil =>
      simp only [List.nil_append, List.cons_append, List.cons.injEq] at h
      exact absurd (h.1 ▸ List.mem_cons_self _ _) h₁
    | cons y ys =>
      simp only [List.cons_append, List.cons.injEq] at h
      simp only [List.mem_cons, not_or] at h₁ h₂
      rw [h.1, ih ys h₁.2 h₂.2 h.2]

theorem metricName_eq_of_alertKey_eq (a b : Alert) (ha : '_' ∉ a.metricName.data)
    (hb : '_' ∉ b.metricName.data) (h : alertKey a = alertKey b) :
    a.metricName = b.metricName := by
  have hd := congrArg String.data h
  simp only [alertKey, String.data_append] at hd
  simp only [List.append_assoc, List.singleton_append] at hd
  have := eq_of_append_sep '_' _ _ _ _ ha hb hd
  exact String.ext this

theorem sendUrgentAlert_eq (send : Transport) (clock : Clock) (s : Service)
    (alerts : List Alert) :
    sendUrgentAlert send clock s alerts =
      { s with sent := s.sent ++ [formatUrgentAlert clock alerts] } := by
  unfold sendUrgentAlert
  simp

theorem checkAlerts_ok (rt : Runtime) (send : Transport) (clock : Clock) (s : Service)
    (metrics : Snapshot) (got : List Alert)
    (hgot : collectAlerts rt clock metrics = .ok got) :
    checkAlerts rt send clock s metrics =
      (got, if (got.filter fun a => a.urgency = .HIGH) = [] then s
        else { s with sent := s.sent ++
          [formatUrgentAlert clock (got.filter fun a => a.urgency = .HIGH)] }) := by
  unfold checkAlerts
  rw [hgot]
  simp only []
  by_cases he : (got.filter fun a => a.urgency = .HIGH) = []
  · simp [he]
  · have hl : (got.filter fun a => a.urgency = .HIGH).length > 0 :=
      List.length_pos.mpr he
    simp only [hl, if_true, he, if_false, sendUrgentAlert_eq]

theorem checkAlerts_error (rt : Runtime) (send : Transport) (clock : Clock) (s : Service)
    (metrics : Snapshot) (e : JSError) (hgot : collectAlerts rt clock metrics = .error e) :
    checkAlerts rt send clock s metrics = ([], s) := by
  unfold checkAlerts
  rw [hgot]

theorem checkAlerts_fst_ne_nil (rt : Runtime) (send : Transport) (clock : Clock) (s : Service)
    (metrics : Snapshot) (alerts : List Alert) (hne : alerts ≠ [])
    (h : (checkAlerts rt send clock s metrics).1 = alerts) :
    collectAlerts rt clock metrics = .ok alerts := by
  cases hgot : collectAlerts rt clock metrics with
  | error e =>
    rw [checkAlerts_error rt send clock s metrics e hgot] at h
    exact absurd h.symm hne
  | ok got =>
    rw [checkAlerts_ok rt send clock s metrics got hgot] at h
    simp only at h
    rw [h]

theorem checkAlerts_snd (rt : Runtime) (send : Transport) (clock : Clock) (s : Service)
    (metrics : Snapshot) :
    (checkAlerts rt send clock s metrics).2 =
      if ((checkAlerts rt send clock s metrics).1.filter fun a => a.urgency = .HIGH) = [] then s
      else { s with sent := s.sent ++ [formatUrgentAlert clock
        ((checkAlerts rt send clock s metrics).1.filter fun a => a.urgency = .HIGH)] } := by
  cases hgot : collectAlerts rt clock metrics with
  | error e =>
    rw [checkAlerts_error rt send clock s metrics e hgot]
    simp
  | ok got =>
    rw [checkAlerts_ok rt send clock s metrics got hgot]

theorem sendAlert_pass_ok (rt : Runtime) (send : Transport) (before after : Clock)
    (s : Service) (a : Alert) (hpass : shouldSendAlert s.alertHistory before.now a = true)
    (hok : send (formatAlertMessage rt before a) = true) :
    sendAlert rt send before after s a =
      (true, { alertHistory := recordAlert s.alertHistory after.now a
               sent := s.sent ++ [formatAlertMessage rt before a] }) := by
  simp [sendAlert, hpass, hok]

theorem sendAlert_pass_fail (rt : Runtime) (send : Transport) (before after : Clock)
    (s : Service) (a : Alert) (hpass : shouldSendAlert s.alertHistory before.now a = true)
    (hfail : send (formatAlertMessage rt before a) = false) :
    sendAlert rt send before after s a =
      (false, { s with sent := s.sent ++ [formatAlertMessage rt before a] }) := by
  simp [sendAlert, hpass, hfail]

theorem sendAlert_suppressed (rt : Runtime) (send : Transport) (before after : Clock)
    (s : Service) (a : Alert) (hsupp : shouldSendAlert s.alertHistory before.now a = false) :
    sendAlert rt send before after s a = (false, s) := by
  simp [sendAlert, hsupp]

theorem shouldSendAlert_after_other (h : AlertHistory) (t now : Int) (a b : Alert)
    (hne : alertKey b ≠ alertKey a) (hpass : shouldSendAlert h now b = true) :
    shouldSendAlert (recordAlert h t a) now b = true := by
  rcases get_recordAlert_ne h t a (alertKey b) hne with hsame | hnone
  · unfold shouldSendAlert at hpass ⊢
    rw [hsame]; exact hpass
  · unfold shouldSendAlert
    rw [hnone]

theorem recordAlert_ne_self (h : AlertHistory) (check now : Int) (a : Alert)
    (hwf : WellFormed h) (hclock : check ≤ now) (hpos : 0 < now)
    (hpass : shouldSendAlert h check a = true) : recordAlert h now a ≠ h := by
  intro heq
  have hget := get_recordAlert_self h now a hwf
  rw [heq] at hget
  have hC : cooldownPeriod = 1800000 := by decide
  unfold shouldSendAlert at hpass
  rw [hget] at hpass
  have h0 : now ≠ 0 := by omega
  simp only [h0, if_false, hC] at hpass
  cases hu : a.urgency <;> rw [hu] at hpass <;> simp at hpass <;> omega

theorem shouldSendAlert_mono (h : AlertHistory) (now later : Int) (a : Alert)
    (hle : now ≤ later) (hpass : shouldSendAlert h now a = true) :
    shouldSendAlert h later a = true := by
  unfold shouldSendAlert at hpass ⊢
  split
  · rfl
  · rename_i lastSent hget
    rw [hget] at hpass
    simp only at hpass
    split
    · rfl
    · rename_i h0
      simp only [h0, if_false] at hpass
      cases hu : a.urgency <;> rw [hu] at hpass <;> simp only [decide_eq_true_eq] at hpass ⊢ <;>
        omega

theorem sendAlert_cases (rt : Runtime) (send : Transport) (before after : Clock)
    (s : Service) (a : Alert) :
    sendAlert rt send before after s a = (false, s) ∨
    sendAlert rt send before after s a =
      (false, { s with sent := s.sent ++ [formatAlertMessage rt before a] }) ∨
    (shouldSendAlert s.alertHistory before.now a = true ∧
      sendAlert rt send before after s a =
        (true, { alertHistory := recordAlert s.alertHistory after.now a
                 sent := s.sent ++ [formatAlertMessage rt before a] })) := by
  cases hpass : shouldSendAlert s.alertHistory before.now a with
  | false => exact Or.inl (sendAlert_suppressed rt send before after s a hpass)
  | true =>
    cases hsend : send (formatAlertMessage rt before a) with
    | false => exact Or.inr (Or.inl (sendAlert_pass_fail rt send before after s a hpass hsend))
    | true => exact Or.inr (Or.inr ⟨rfl, sendAlert_pass_ok rt send before after s a hpass hsend⟩)

theorem sendAll_sent (rt : Runtime) (send : Transport) (clocks : Nat → Clock × Clock)
    (alerts : List Alert) (i : Nat) (s : Service) :
    ∃ rest : List String, (sendAll rt send clocks i s alerts).sent = s.sent ++ rest ∧
      ∀ m ∈ rest, ∃ a ∈ alerts, ∃ j, m = formatAlertMessage rt (clocks j).1 a := by
  induction alerts generalizing i s with
  | nil => exact ⟨[], by simp [sendAll], by simp⟩
  | cons b bs ih =>
    simp only [sendAll]
    obtain ⟨rest, hrest, hform⟩ := ih (i + 1) (sendAlert rt send (clocks i).1 (clocks i).2 s b).2
    have hlift : ∀ m ∈ rest, ∃ a ∈ b :: bs, ∃ j, m = formatAlertMessage rt (clocks j).1 a := by
      intro m hm
      obtain ⟨a, ha, j, hj⟩ := hform m hm
      exact ⟨a, List.mem_cons_of_mem _ ha, j, hj⟩
    rcases sendAlert_cases rt send (clocks i).1 (clocks i).2 s b with h | h | ⟨_, h⟩
    · rw [h] at hrest ⊢
      exact ⟨rest, hrest, hlift⟩
    · rw [h] at hrest ⊢
      refine ⟨formatAlertMessage rt (clocks i).1 b :: rest, by simpa using hrest, ?_⟩
      intro m hm
      rcases List.mem_cons.mp hm with rfl | hm
      · exact ⟨b, List.mem_cons_self _ _, i, rfl⟩
      · exact hlift m hm
    · rw [h] at hrest ⊢
      refine ⟨formatAlertMessage rt (clocks i).1 b :: rest, by simpa using hrest, ?_⟩
      intro m hm
      rcases List.mem_cons.mp hm with rfl | hm
      · exact ⟨b, List.mem_cons_self _ _, i, rfl⟩
      · exact hlift m hm

theorem sendAll_mem_of_pass (rt : Runtime) (send : Transport) (clocks : Nat → Clock × Clock)
    (alerts : List Alert) (i : Nat) (s : Service) (a : Alert) (base : List String)
    (hbase : s.sent.length = base.length)
    (ha : a ∈ alerts) (hkeys : (alerts.map alertKey).Nodup)
    (hpass : ∀ j, shouldSendAlert s.alertHistory (clocks j).1.now a = true)
    (hsend : ∀ text, send text = true) :
    ∃ j, formatAlertMessage rt (clocks j).1 a ∈
      ((sendAll rt send clocks i s alerts).sent.drop base.length) := by
  induction alerts generalizing i s base with
  | nil => cases ha
  | cons b bs ih =>
    simp only [List.map_cons, List.nodup_cons] at hkeys
    simp only [sendAll]
    rcases List.mem_cons.mp ha with rfl | hin
    · rw [sendAlert_pass_ok rt send (clocks i).1 (clocks i).2 s a (hpass i) (hsend _)]
      obtain ⟨rest, hrest, _⟩ := sendAll_sent rt send clocks bs (i + 1)
        { alertHistory := recordAlert s.alertHistory (clocks i).2.now a
          sent := s.sent ++ [formatAlertMessage rt (clocks i).1 a] }
      refine ⟨i, ?_⟩
      rw [hrest, ← hbase]
      simp
    · have hne : alertKey a ≠ alertKey b := by
        intro heq
        exact hkeys.1 (heq ▸ List.mem_map_of_mem alertKey hin)
      rcases sendAlert_cases rt send (clocks i).1 (clocks i).2 s b with h | h | ⟨_, h⟩
      · rw [h]
        exact ih (i + 1) s base hbase hin hkeys.2 hpass
      · rw [h]
        obtain ⟨j, hj⟩ := ih (i + 1) { s with sent := s.sent ++ [formatAlertMessage rt (clocks i).1 b] }
          (base ++ [""]) (by simp [hbase]) hin hkeys.2 hpass
        refine ⟨j, ?_⟩
        have hsub := List.drop_sublist 1 (List.drop base.length (sendAll rt send clocks (i + 1)
          { s with sent := s.sent ++ [formatAlertMessage rt (clocks i).1 b] } bs).sent)
        rw [List.drop_drop] at hsub
        apply hsub.subset
        simpa [Nat.add_comm] using hj
      · rw [h]
        obtain ⟨j, hj⟩ := ih (i + 1)
          { alertHistory := recordAlert s.alertHistory (clocks i).2.now b
            sent := s.sent ++ [formatAlertMessage rt (clocks i).1 b] }
          (base ++ [""]) (by simp [hbase]) hin hkeys.2
          (fun j => shouldSendAlert_after_other s.alertHistory _ _ b a hne (hpass j))
        refine ⟨j, ?_⟩
        have hsub := List.drop_sublist 1 (List.drop base.length (sendAll rt send clocks (i + 1)
          { alertHistory := recordAlert s.alertHistory (clocks i).2.now b
            sent := s.sent ++ [formatAlertMessage rt (clocks i).1 b] } bs).sent)
        rw [List.drop_drop] at hsub
        apply hsub.subset
        simpa [Nat.add_comm] using hj

theorem performMarketCheck_two_high (rt : Runtime) (send : Transport) (clock : Clock)
    (clocks : Nat → Clock × Clock) (s : Service) (metrics : Snapshot) (a₁ a₂ : Alert)
    (hcycle : (checkAlerts rt send clock s metrics).1 = [a₁, a₂])
    (h₁ : a₁.urgency = .HIGH) (h₂ : a₂.urgency = .HIGH)
    (hmetric : a₁.metricName ≠ a₂.metricName)
    (hpass₁ : shouldSendAlert s.alertHistory (clocks 0).1.now a₁ = true)
    (hpass₂ : shouldSendAlert s.alertHistory (clocks 1).1.now a₂ = true)
    (hsend : ∀ text, send text = true) :
    (performMarketCheck rt send clock clocks s metrics).sent =
      s.sent ++ [formatUrgentAlert clock [a₁, a₂], formatAlertMessage rt (clocks 0).1 a₁,
        formatAlertMessage rt (clocks 1).1 a₂] := by
  have hgot := checkAlerts_fst_ne_nil rt send clock s metrics [a₁, a₂] (by simp) hcycle
  have hnames := collectAlerts_metricName rt clock metrics [a₁, a₂] hgot
  have hkey : alertKey a₂ ≠ alertKey a₁ := by
    intro heq
    exact hmetric (metricName_eq_of_alertKey_eq a₁ a₂ (hnames a₁ (by simp))
      (hnames a₂ (by simp)) heq.symm)
  have hfilter : ([a₁, a₂].filter fun a => a.urgency = .HIGH) = [a₁, a₂] := by
    simp [List.filter_cons, h₁, h₂]
  unfold performMarketCheck
  rw [checkAlerts_ok rt send clock s metrics [a₁, a₂] hgot, hfilter]
  simp only [List.cons_ne_nil, if_false, sendAll, zero_add]
  rw [sendAlert_pass_ok rt send (clocks 0).1 (clocks 0).2
    { s with sent := s.sent ++ [formatUrgentAlert clock [a₁, a₂]] } a₁ hpass₁ (hsend _)]
  simp only []
  rw [sendAlert_pass_ok rt send (clocks 1).1 (clocks 1).2
    { alertHistory := recordAlert s.alertHistory (clocks 0).2.now a₁
      sent := s.sent ++ [formatUrgentAlert clock [a₁, a₂]] ++
        [formatAlertMessage rt (clocks 0).1 a₁] } a₂
    (shouldSendAlert_after_other s.alertHistory _ _ a₁ a₂ hkey hpass₂) (hsend _)]
  simp

theorem alertKey_nodup_of_metricName_nodup (alerts : List Alert)
    (hnames : ∀ a ∈ alerts, '_' ∉ a.metricName.data)
    (hnd : (alerts.map fun a => a.metricName).Nodup) : (alerts.map alertKey).Nodup := by
  have hinj := List.inj_on_of_nodup_map hnd
  refine List.Nodup.map_on ?_ (List.Nodup.of_map _ hnd)
  intro x hx y hy hxy
  exact hinj hx hy (metricName_eq_of_alertKey_eq x y (hnames x hx) (hnames y hy) hxy)

/-! ## Escalation and dispatch: claims C1 to C4 -/

/-- C1, counterexample.  On the snapshot with VIX at 42 and put/call at 2.5, an empty
cooldown store and a transport that always succeeds, the cycle produces exactly two
HIGH candidates for two distinct metrics, both passing `shouldSendAlert`; the messages
sent are the composite notification followed by one individual notification for each
candidate, so it is false that no individual notification is sent for them. -/
theorem escalation_also_sends_individual :
    (checkAlerts sampleRuntime okTransport (sampleClock 1000) emptyService
      sampleSnapshot).1.map (fun a => (a.metricName, a.urgency))
      = [("vix", Urgency.HIGH), ("putCallRatio", Urgency.HIGH)] ∧
    (∀ a ∈ (checkAlerts sampleRuntime okTransport (sampleClock 1000) emptyService
      sampleSnapshot).1, shouldSendAlert emptyService.alertHistory 2000 a = true) ∧
    (performMarketCheck sampleRuntime okTransport (sampleClock 1000) sampleClocks emptyService
      sampleSnapshot).sent =
      formatUrgentAlert (sampleClock 1000)
        (checkAlerts sampleRuntime okTransport (sampleClock 1000) emptyService
          sampleSnapshot).1 ::
      (checkAlerts sampleRuntime okTransport (sampleClock 1000) emptyService
        sampleSnapshot).1.map (formatAlertMessage sampleRuntime (sampleClock 2000)) ∧
    ¬ (∀ a ∈ (checkAlerts sampleRuntime okTransport (sampleClock 1000) emptyService
        sampleSnapshot).1,
      formatAlertMessage sampleRuntime (sampleClock 2000) a ∉
        (performMarketCheck sampleRuntime okTransport (sampleClock 1000) sampleClocks
          emptyService sampleSnapshot).sent) := by
  decide!

/-- C1, amended.  In a cycle whose candidates are for pairwise distinct metrics and whose
HIGH candidates are exactly `a₁` and `a₂`, both passing `shouldSendAlert` at evaluation
time, with a clock that does not run backwards and a transport that always succeeds,
the messages sent are: the composite notification listing `a₁` and `a₂`, sent once and
first, then individual notifications only, among them one for `a₁` and one for `a₂`.
When `a₁` and `a₂` are the only candidates the messages are exactly these three. -/
theorem escalation_composite_and_individual (rt : Runtime) (send : Transport) (clock : Clock)
    (clocks : Nat → Clock × Clock) (s : Service) (metrics : Snapshot) (a₁ a₂ : Alert)
    (hhigh : (checkAlerts rt send clock s metrics).1.filter (fun a => a.urgency = .HIGH)
      = [a₁, a₂])
    (hmetrics : ((checkAlerts rt send clock s metrics).1.map fun a => a.metricName).Nodup)
    (hpass₁ : shouldSendAlert s.alertHistory clock.now a₁ = true)
    (hpass₂ : shouldSendAlert s.alertHistory clock.now a₂ = true)
    (hclock : ∀ j, clock.now ≤ (clocks j).1.now)
    (hsend : ∀ text, send text = true) :
    (∃ rest : List String,
      (performMarketCheck rt send clock clocks s metrics).sent =
        s.sent ++ formatUrgentAlert clock [a₁, a₂] :: rest ∧
      (∀ m ∈ rest, ∃ a ∈ (checkAlerts rt send clock s metrics).1, ∃ j,
        m = formatAlertMessage rt (clocks j).1 a) ∧
      (∃ j, formatAlertMessage rt (clocks j).1 a₁ ∈ rest) ∧
      (∃ j, formatAlertMessage rt (clocks j).1 a₂ ∈ rest)) ∧
    ((checkAlerts rt send clock s metrics).1 = [a₁, a₂] →
      (performMarketCheck rt send clock clocks s metrics).sent =
        s.sent ++ [formatUrgentAlert clock [a₁, a₂], formatAlertMessage rt (clocks 0).1 a₁,
          formatAlertMessage rt (clocks 1).1 a₂]) := by
  have hf₁ : a₁ ∈ (checkAlerts rt send clock s metrics).1.filter
      (fun a => a.urgency = .HIGH) := by
    rw [hhigh]; simp
  have hf₂ : a₂ ∈ (checkAlerts rt send clock s metrics).1.filter
      (fun a => a.urgency = .HIGH) := by
    rw [hhigh]; simp
  obtain ⟨hmem₁, hd₁⟩ := List.mem_filter.mp hf₁
  obtain ⟨hmem₂, hd₂⟩ := List.mem_filter.mp hf₂
  have hu₁ : a₁.urgency = .HIGH := by simpa using hd₁
  have hu₂ : a₂.urgency = .HIGH := by simpa using hd₂
  have hp₁ : ∀ j, shouldSendAlert s.alertHistory (clocks j).1.now a₁ = true :=
    fun j => shouldSendAlert_mono _ _ _ a₁ (hclock j) hpass₁
  have hp₂ : ∀ j, shouldSendAlert s.alertHistory (clocks j).1.now a₂ = true :=
    fun j => shouldSendAlert_mono _ _ _ a₂ (hclock j) hpass₂
  constructor
  · have hgot := checkAlerts_fst_ne_nil rt send clock s metrics
      (checkAlerts rt send clock s metrics).1 (List.ne_nil_of_mem hmem₁) rfl
    have hkeys := alertKey_nodup_of_metricName_nodup _
      (collectAlerts_metricName rt clock metrics _ hgot) hmetrics
    have hsnd := checkAlerts_snd rt send clock s metrics
    rw [hhigh, if_neg (List.cons_ne_nil _ _)] at hsnd
    obtain ⟨rest, hrest, hform⟩ := sendAll_sent rt send clocks
      (checkAlerts rt send clock s metrics).1 0 (checkAlerts rt send clock s metrics).2
    have hsent : (performMarketCheck rt send clock clocks s metrics).sent =
        s.sent ++ formatUrgentAlert clock [a₁, a₂] :: rest := by
      unfold performMarketCheck
      simp only []
      rw [hrest, hsnd]
      simp
    have hdrop : ((sendAll rt send clocks 0 (checkAlerts rt send clock s metrics).2
        (checkAlerts rt send clock s metrics).1).sent.drop
          (checkAlerts rt send clock s metrics).2.sent.length) = rest := by
      rw [hrest]; simp
    have hhist : (checkAlerts rt send clock s metrics).2.alertHistory = s.alertHistory := by
      rw [hsnd]
    refine ⟨rest, hsent, hform, ?_, ?_⟩
    · obtain ⟨j, hj⟩ := sendAll_mem_of_pass rt send clocks _ 0
        (checkAlerts rt send clock s metrics).2 a₁ (checkAlerts rt send clock s metrics).2.sent
        rfl hmem₁ hkeys (fun j => hhist ▸ hp₁ j) hsend
      exact ⟨j, hdrop ▸ hj⟩
    · obtain ⟨j, hj⟩ := sendAll_mem_of_pass rt send clocks _ 0
        (checkAlerts rt send clock s metrics).2 a₂ (checkAlerts rt send clock s metrics).2.sent
        rfl hmem₂ hkeys (fun j => hhist ▸ hp₂ j) hsend
      exact ⟨j, hdrop ▸ hj⟩
  · intro hcycle
    have hne : a₁.metricName ≠ a₂.metricName := by
      rw [hcycle] at hmetrics
      simp only [List.map_cons, List.map_nil, List.nodup_cons, List.mem_singleton] at hmetrics
      exact hmetrics.1
    exact performMarketCheck_two_high rt send clock clocks s metrics a₁ a₂ hcycle hu₁ hu₂ hne
      (hp₁ 0) (hp₂ 1) hsend

/-- C1, witness of the amended statement on the sample snapshot. -/
theorem escalation_composite_and_individual_witness :
    (∃ rest : List String,
      (performMarketCheck sampleRuntime okTransport (sampleClock 1000) sampleClocks
        emptyService sampleSnapshot).sent =
        emptyService.sent ++
          formatUrgentAlert (sampleClock 1000) [sampleAlert, samplePutCallAlert] :: rest ∧
      (∀ m ∈ rest, ∃ a ∈ (checkAlerts sampleRuntime okTransport (sampleClock 1000)
          emptyService sampleSnapshot).1, ∃ j,
        m = formatAlertMessage sampleRuntime (sampleClocks j).1 a) ∧
      (∃ j, formatAlertMessage sampleRuntime (sampleClocks j).1 sampleAlert ∈ rest) ∧
      (∃ j, formatAlertMessage sampleRuntime (sampleClocks j).1 samplePutCallAlert ∈ rest)) ∧
    ((checkAlerts sampleRuntime okTransport (sampleClock 1000) emptyService
        sampleSnapshot).1 = [sampleAlert, samplePutCallAlert] →
      (performMarketCheck sampleRuntime okTransport (sampleClock 1000) sampleClocks
        emptyService sampleSnapshot).sent =
        emptyService.sent ++
          [formatUrgentAlert (sampleClock 1000) [sampleAlert, samplePutCallAlert],
           formatAlertMessage sampleRuntime (sampleClocks 0).1 sampleAlert,
           formatAlertMessage sampleRuntime (sampleClocks 1).1 samplePutCallAlert]) :=
  escalation_composite_and_individual sampleRuntime okTransport (sampleClock 1000)
    sampleClocks emptyService sampleSnapshot sampleAlert samplePutCallAlert
    (by decide!) (by decide!) (by decide) (by decide)
    (fun j => by simp only [sampleClocks, sampleClock]; omega) (fun _ => rfl)

/-- C2, the code at the failing input.  On the snapshot whose only metric is VIX at 42
the candidate list holds exactly one candidate, of urgency HIGH, and `checkAlerts`
sends the composite notification, whose text announces multiple signals, for it. -/
theorem single_high_sends_composite :
    (checkAlerts sampleRuntime okTransport (sampleClock 1000) emptyService
      sampleSingleSnapshot).1 = [sampleAlert] ∧
    (checkAlerts sampleRuntime okTransport (sampleClock 1000) emptyService
      sampleSingleSnapshot).2.sent =
      ["🚨 <b>URGENT MARKET ALERT</b> 🚨\n\n" ++
       "<b>Multiple high-urgency signals detected:</b>\n\n" ++
       "1. 🔴⚫ 🚨 MAXIMUM CRASH BUYING OPPORTUNITY! VIX at 42.0 - Deploy ALL remaining cash!\n" ++
       "\n⚠️ <b>IMMEDIATE ACTION REQUIRED</b> ⚠️\n" ++
       "<i>⏰ 12:00:00 PM</i>"] := by
  decide!

/-- C3, counterexample.  With an empty cooldown store and a transport that succeeds,
`sendUrgentAlert` delivers the composite notification for the VIX candidate, yet the
store holds no entry under the candidate's key afterwards and `shouldSendAlert` for it
returns true. -/
theorem urgent_send_records_nothing :
    okTransport (formatUrgentAlert (sampleClock 1000) [sampleAlert]) = true ∧
    (sendUrgentAlert okTransport (sampleClock 1000) emptyService
      [sampleAlert]).sent = [formatUrgentAlert (sampleClock 1000) [sampleAlert]] ∧
    (sendUrgentAlert okTransport (sampleClock 1000) emptyService
      [sampleAlert]).alertHistory.get (alertKey sampleAlert) = none ∧
    shouldSendAlert (sendUrgentAlert okTransport (sampleClock 1000) emptyService
      [sampleAlert]).alertHistory 1000 sampleAlert = true := by
  decide!

/-- C3, amended.  For every list of candidates and either outcome of the transport,
`sendUrgentAlert` passes the composite text to the transport once and leaves the
cooldown store as it was, so `shouldSendAlert` answers for every candidate and time
what it answered before the call. -/
theorem sendUrgentAlert_keeps_alertHistory (send : Transport) (clock : Clock) (s : Service)
    (alerts : List Alert) :
    (sendUrgentAlert send clock s alerts).alertHistory = s.alertHistory ∧
    (sendUrgentAlert send clock s alerts).sent = s.sent ++ [formatUrgentAlert clock alerts] ∧
    (∀ (now : Int) (a : Alert),
      shouldSendAlert (sendUrgentAlert send clock s alerts).alertHistory now a =
        shouldSendAlert s.alertHistory now a) := by
  rw [sendUrgentAlert_eq]
  exact ⟨rfl, rfl, fun _ _ => rfl⟩

/-- C4, counterexample.  The VIX candidate was dispatched at time 1000.  At time 2000,
less than `C/2` later, the cycle on the snapshot with VIX at 42 and put/call at 2.5 has
two HIGH candidates; `shouldSendAlert` returns false for the VIX candidate, and the
cycle still sends the composite notification that lists it, followed by the individual
notification of the put/call candidate only. -/
theorem composite_ignores_cooldown :
    (checkAlerts sampleRuntime okTransport (sampleClock 2000) recentService
      sampleSnapshot).1 = [sampleAlert, samplePutCallAlert] ∧
    sampleAlert.urgency = .HIGH ∧ samplePutCallAlert.urgency = .HIGH ∧
    shouldSendAlert recentService.alertHistory 2000 sampleAlert = false ∧
    (performMarketCheck sampleRuntime okTransport (sampleClock 2000) sampleClocks recentService
      sampleSnapshot).sent =
      [formatUrgentAlert (sampleClock 2000) [sampleAlert, samplePutCallAlert],
       formatAlertMessage sampleRuntime (sampleClocks 1).1 samplePutCallAlert] := by
  decide!

/-- C4, amended.  In a cycle with at least two HIGH candidates, a HIGH candidate for
which `shouldSendAlert` returns false is still listed in the composite notification,
which `checkAlerts` sends for the HIGH candidates of the cycle without reading or
writing the cooldown store; `sendAlert` on that candidate in the state left by
`checkAlerts` returns false without calling the transport and without changing the
state. -/
theorem suppressed_high_only_in_composite (rt : Runtime) (send : Transport)
    (clock before after : Clock) (s : Service) (metrics : Snapshot) (a : Alert)
    (htwo : 2 ≤ ((checkAlerts rt send clock s metrics).1.filter
      fun c => c.urgency = .HIGH).length)
    (hmem : a ∈ (checkAlerts rt send clock s metrics).1) (hhigh : a.urgency = .HIGH)
    (hsupp : shouldSendAlert s.alertHistory before.now a = false) :
    a ∈ (checkAlerts rt send clock s metrics).1.filter (fun c => c.urgency = .HIGH) ∧
    (checkAlerts rt send clock s metrics).2.sent =
      s.sent ++ [formatUrgentAlert clock
        ((checkAlerts rt send clock s metrics).1.filter fun c => c.urgency = .HIGH)] ∧
    (checkAlerts rt send clock s metrics).2.alertHistory = s.alertHistory ∧
    sendAlert rt send before after (checkAlerts rt send clock s metrics).2 a =
      (false, (checkAlerts rt send clock s metrics).2) := by
  have hin : a ∈ (checkAlerts rt send clock s metrics).1.filter (fun c => c.urgency = .HIGH) := by
    simp [List.mem_filter, hmem, hhigh]
  have hne : ((checkAlerts rt send clock s metrics).1.filter fun c => c.urgency = .HIGH) ≠ [] := by
    intro hnil
    rw [hnil] at htwo
    simp at htwo
  have hsnd := checkAlerts_snd rt send clock s metrics
  rw [if_neg hne] at hsnd
  have hhist : (checkAlerts rt send clock s metrics).2.alertHistory = s.alertHistory := by
    rw [hsnd]
  refine ⟨hin, by rw [hsnd], hhist, ?_⟩
  apply sendAlert_suppressed
  rw [hhist]
  exact hsupp

/-- C4, witness of the amended statement: the recently dispatched VIX candidate in the
cycle that also has the put/call candidate. -/
theorem suppressed_high_only_in_composite_witness :
    sampleAlert ∈ (checkAlerts sampleRuntime okTransport (sampleClock 2000) recentService
      sampleSnapshot).1.filter (fun c => c.urgency = .HIGH) ∧
    (checkAlerts sampleRuntime okTransport (sampleClock 2000) recentService
      sampleSnapshot).2.sent =
      recentService.sent ++ [formatUrgentAlert (sampleClock 2000)
        ((checkAlerts sampleRuntime okTransport (sampleClock 2000) recentService
          sampleSnapshot).1.filter fun c => c.urgency = .HIGH)] ∧
    (checkAlerts sampleRuntime okTransport (sampleClock 2000) recentService
      sampleSnapshot).2.alertHistory = recentService.alertHistory ∧
    sendAlert sampleRuntime okTransport (sampleClock 2000) (sampleClock 2500)
      (checkAlerts sampleRuntime okTransport (sampleClock 2000) recentService
        sampleSnapshot).2 sampleAlert =
      (false, (checkAlerts sampleRuntime okTransport (sampleClock 2000) recentService
        sampleSnapshot).2) :=
  suppressed_high_only_in_composite sampleRuntime okTransport (sampleClock 2000)
    (sampleClock 2000) (sampleClock 2500) recentService sampleSnapshot sampleAlert
    (by decide!) (by decide!) (by decide) (by decide)

/-! ## The cooldown store: claims C5 to C8 -/

/-- C5.  `shouldSendAlert` returns true when the store has no entry for the key; when the
store holds a non-zero time `T` it returns true exactly when `now - T` exceeds the
window of the urgency, `C/2 = 900000` for HIGH, `C = 1800000` for MEDIUM and
`2·C = 3600000` for LOW; at an elapsed time equal to the window it returns false, and
for HIGH it returns false at 10 minutes and true at 20 minutes. -/
theorem shouldSendAlert_window (h : AlertHistory) (now : Int) (a : Alert) :
    cooldownPeriod = 1800000 ∧
    cooldownWindow .HIGH = 900000 ∧ cooldownWindow .MEDIUM = 1800000 ∧
    cooldownWindow .LOW = 3600000 ∧
    (h.get (alertKey a) = none → shouldSendAlert h now a = true) ∧
    (∀ T : Int, h.get (alertKey a) = some T → T ≠ 0 →
      (shouldSendAlert h now a = true ↔ now - T > cooldownWindow a.urgency)) ∧
    (∀ T : Int, h.get (alertKey a) = some T → T ≠ 0 →
      now - T = cooldownWindow a.urgency → shouldSendAlert h now a = false) ∧
    (∀ T : Int, h.get (alertKey a) = some T → T ≠ 0 → a.urgency = .HIGH →
      (now - T = 10 * 60 * 1000 → shouldSendAlert h now a = false) ∧
      (now - T = 20 * 60 * 1000 → shouldSendAlert h now a = true)) := by
  have hC : cooldownPeriod = 1800000 := by decide
  have hiff : ∀ T : Int, h.get (alertKey a) = some T → T ≠ 0 →
      (shouldSendAlert h now a = true ↔ now - T > cooldownWindow a.urgency) := by
    intro T hT h0
    unfold shouldSendAlert
    rw [hT]
    simp only [h0, if_false]
    cases a.urgency <;> simp [cooldownWindow, hC]
  refine ⟨hC, by simp [cooldownWindow, hC], by simp [cooldownWindow, hC],
    by simp [cooldownWindow, hC], ?_, hiff, ?_, ?_⟩
  · intro hnone
    unfold shouldSendAlert
    rw [hnone]
  · intro T hT h0 heq
    have := hiff T hT h0
    cases hs : shouldSendAlert h now a
    · rfl
    · have := this.mp hs
      omega
  · intro T hT h0 hHigh
    have := hiff T hT h0
    rw [hHigh] at this
    simp only [cooldownWindow, hC] at this
    constructor
    · intro hd
      cases hs : shouldSendAlert h now a
      · rfl
      · have := this.mp hs
        omega
    · intro hd
      apply this.mpr
      omega

/-- C6.  In a store reached from the empty store by `recordAlert` calls, after
`recordAlert` of a HIGH candidate at a time `T > 0` the store maps the candidate's key
to `T`, and `shouldSendAlert` at `T + ε` returns false for `0 ≤ ε < C/2`. -/
theorem no_resend_within_half_cooldown (calls : List (Int × Alert)) (a : Alert) (T ε : Int)
    (hHigh : a.urgency = .HIGH) (hT : T > 0) (h0 : 0 ≤ ε) (hε : ε < cooldownPeriod / 2) :
    (recordAlert (recordAll calls []) T a).get (alertKey a) = some T ∧
    shouldSendAlert (recordAlert (recordAll calls []) T a) (T + ε) a = false := by
  have hwf := recordAll_wellFormed calls [] wellFormed_nil
  have hget := get_recordAlert_self (recordAll calls []) T a hwf
  refine ⟨hget, ?_⟩
  have hC : cooldownPeriod = 1800000 := by decide
  rw [hC] at hε
  unfold shouldSendAlert
  rw [hget, hHigh]
  have hT0 : T ≠ 0 := by omega
  simp only [hT0, if_false, hC]
  simp
  omega

/-- C6, witness: the candidate is recorded on a full store of 100 other keys. -/
theorem no_resend_within_half_cooldown_witness :
    (recordAlert (recordAll sampleCalls []) 5000 sampleAlert).get (alertKey sampleAlert)
      = some 5000 ∧
    shouldSendAlert (recordAlert (recordAll sampleCalls []) 5000 sampleAlert)
      (5000 + 899999) sampleAlert = false :=
  no_resend_within_half_cooldown sampleCalls sampleAlert 5000 899999 (by decide) (by decide)
    (by decide) (by decide)

/-- C7.  After any finite sequence of `recordAlert` calls from the empty store, with any
keys and any times, the store holds at most 100 entries. -/
theorem alertHistory_size_le_100 (calls : List (Int × Alert)) :
    (recordAll calls []).size ≤ 100 :=
  (recordAll_wellFormed calls [] wellFormed_nil).2

/-- C8.  After 101 `recordAlert` calls with pairwise distinct keys from the empty store,
the store holds exactly 100 entries, the key recorded first is absent, and each of the
other 100 keys maps to the time of its call. -/
theorem eviction_after_101_distinct (calls : List (Int × Alert)) (hlen : calls.length = 101)
    (hnd : (calls.map fun c => alertKey c.2).Nodup) :
    (recordAll calls []).size = 100 ∧
    (∀ c, calls.head? = some c → (recordAll calls []).get (alertKey c.2) = none) ∧
    (∀ c ∈ calls.tail, (recordAll calls []).get (alertKey c.2) = some c.1) := by
  rw [recordAll_101 calls hlen hnd]
  cases calls with
  | nil => simp at hlen
  | cons c0 rest =>
    simp only [List.tail_cons, List.head?_cons, Option.some.injEq, List.map_cons,
      List.nodup_cons, List.length_cons] at hlen hnd ⊢
    have hkeys := keys_map_entryOf rest
    refine ⟨by simp [size]; omega, ?_, ?_⟩
    · intro c hc
      subst hc
      apply get_eq_none_of_not_mem
      rw [hkeys]
      exact hnd.1
    · intro c hc
      apply get_of_mem
      · rw [hkeys]; exact hnd.2
      · exact List.mem_map_of_mem entryOf hc

/-- C8, witness on a sample sequence of 101 calls. -/
theorem eviction_after_101_distinct_witness :
    (recordAll sampleCalls []).size = 100 ∧
    (∀ c, sampleCalls.head? = some c → (recordAll sampleCalls []).get (alertKey c.2) = none) ∧
    (∀ c ∈ sampleCalls.tail, (recordAll sampleCalls []).get (alertKey c.2) = some c.1) :=
  eviction_after_101_distinct sampleCalls (by decide!) (by decide!)

/-! ## Dispatch of one candidate: claims C9 and C10 -/

/-- C9.  When the candidate passes `shouldSendAlert` and the transport rejects,
`sendAlert` returns false, the cooldown store is what it was before the call, and the
transport was called once. -/
theorem sendAlert_transport_failure (rt : Runtime) (send : Transport) (before after : Clock)
    (s : Service) (a : Alert)
    (hpass : shouldSendAlert s.alertHistory before.now a = true)
    (hfail : send (formatAlertMessage rt before a) = false) :
    (sendAlert rt send before after s a).1 = false ∧
    (sendAlert rt send before after s a).2.alertHistory = s.alertHistory ∧
    (sendAlert rt send before after s a).2.sent = s.sent ++ [formatAlertMessage rt before a] := by
  rw [sendAlert_pass_fail rt send before after s a hpass hfail]
  exact ⟨rfl, rfl, rfl⟩

/-- C9, witness with a transport that always rejects. -/
theorem sendAlert_transport_failure_witness :
    (sendAlert sampleRuntime failTransport (sampleClock 2000) (sampleClock 2500)
      emptyService sampleAlert).1 = false ∧
    (sendAlert sampleRuntime failTransport (sampleClock 2000) (sampleClock 2500)
      emptyService sampleAlert).2.alertHistory = emptyService.alertHistory ∧
    (sendAlert sampleRuntime failTransport (sampleClock 2000) (sampleClock 2500)
      emptyService sampleAlert).2.sent =
      emptyService.sent ++ [formatAlertMessage sampleRuntime (sampleClock 2000) sampleAlert] :=
  sendAlert_transport_failure sampleRuntime failTransport (sampleClock 2000) (sampleClock 2500)
    emptyService sampleAlert (by decide) (by decide)

/-- C10.  On a store with unique keys and at most 100 entries, with a clock that does not
run backwards and a positive time: `sendAlert` returns true exactly when
`shouldSendAlert` is true and the transport resolves; the store differs from the store
before exactly when `sendAlert` returns true, and it is then the result of
`recordAlert` and maps the candidate's key to the current time; when `shouldSendAlert`
is false the transport is not called. -/
theorem sendAlert_result (rt : Runtime) (send : Transport) (before after : Clock)
    (s : Service) (a : Alert) (hwf : WellFormed s.alertHistory)
    (hclock : before.now ≤ after.now) (hpos : 0 < after.now) :
    ((sendAlert rt send before after s a).1 = true ↔
      (shouldSendAlert s.alertHistory before.now a = true ∧
        send (formatAlertMessage rt before a) = true)) ∧
    ((sendAlert rt send before after s a).2.alertHistory ≠ s.alertHistory ↔
      (sendAlert rt send before after s a).1 = true) ∧
    ((sendAlert rt send before after s a).1 = true →
      (sendAlert rt send before after s a).2.alertHistory
        = recordAlert s.alertHistory after.now a ∧
      (sendAlert rt send before after s a).2.alertHistory.get (alertKey a)
        = some after.now) ∧
    (shouldSendAlert s.alertHistory before.now a = false →
      (sendAlert rt send before after s a).2.sent = s.sent) := by
  cases hpass : shouldSendAlert s.alertHistory before.now a with
  | false =>
    rw [sendAlert_suppressed rt send before after s a hpass]
    simp
  | true =>
    cases hsend : send (formatAlertMessage rt before a) with
    | false =>
      rw [sendAlert_pass_fail rt send before after s a hpass hsend]
      simp
    | true =>
      rw [sendAlert_pass_ok rt send before after s a hpass hsend]
      have hne := recordAlert_ne_self s.alertHistory before.now after.now a hwf hclock hpos hpass
      have hget := get_recordAlert_self s.alertHistory after.now a hwf
      simp [hne, hget]

/-- C10, witness with a transport that always resolves. -/
theorem sendAlert_result_witness :
    ((sendAlert sampleRuntime okTransport (sampleClock 2000) (sampleClock 2500)
        emptyService sampleAlert).1 = true ↔
      (shouldSendAlert emptyService.alertHistory (sampleClock 2000).now sampleAlert = true ∧
        okTransport (formatAlertMessage sampleRuntime (sampleClock 2000) sampleAlert) = true)) ∧
    ((sendAlert sampleRuntime okTransport (sampleClock 2000) (sampleClock 2500)
        emptyService sampleAlert).2.alertHistory ≠ emptyService.alertHistory ↔
      (sendAlert sampleRuntime okTransport (sampleClock 2000) (sampleClock 2500)
        emptyService sampleAlert).1 = true) ∧
    ((sendAlert sampleRuntime okTransport (sampleClock 2000) (sampleClock 2500)
        emptyService sampleAlert).1 = true →
      (sendAlert sampleRuntime okTransport (sampleClock 2000) (sampleClock 2500)
        emptyService sampleAlert).2.alertHistory
        = recordAlert emptyService.alertHistory (sampleClock 2500).now sampleAlert ∧
      (sendAlert sampleRuntime okTransport (sampleClock 2000) (sampleClock 2500)
        emptyService sampleAlert).2.alertHistory.get (alertKey sampleAlert)
        = some (sampleClock 2500).now) ∧
    (shouldSendAlert emptyService.alertHistory (sampleClock 2000).now sampleAlert = false →
      (sendAlert sampleRuntime okTransport (sampleClock 2000) (sampleClock 2500)
        emptyService sampleAlert).2.sent = emptyService.sent) :=
  sendAlert_result sampleRuntime okTransport (sampleClock 2000) (sampleClock 2500)
    emptyService sampleAlert wellFormed_nil (by decide) (by decide)

/-! ## Lemmas on the classifier and on errors in the snapshot -/

theorem evaluateMetric_length (rt : Runtime) (clock : Clock) (name : String)
    (data : MetricData) (alerts : List Alert)
    (h : evaluateMetric rt clock name data = .ok alerts) : alerts.length ≤ 1 := by
  unfold evaluateMetric at h
  split at h
  · cases h
  · simp only at h
    split at h
    · cases h
    · rename_i config hcfg raw hraw
      injection h with h
      subst h
      rw [List.length_map]
      split at hraw
      all_goals try simp only [checkVIXAlerts, checkVIXTermStructureAlerts, checkCAPEAlerts,
        checkMarginDebtAlerts, checkMcclellanAlerts, checkPutCallAlerts, checkRSIAlerts,
        checkHighLowAlerts, checkFearGreedAlerts, checkAAIIAlerts, checkInsiderAlerts,
        checkYieldSpreadAlerts, checkCreditSpreadAlerts, checkDollarAlerts,
        checkNVDAPEAlerts, checkSemiETFAlerts] at hraw
      all_goals repeat' split at hraw
      all_goals first
        | (cases hraw; done)
        | (injection hraw with hraw; subst hraw; simp)

theorem evaluateMetric_ok_of_thresholds (rt : Runtime) (clock : Clock) (name : String)
    (value : Option ℚ) (error : Option String) (th : Thresholds) :
    ∃ alerts, evaluateMetric rt clock name
      { value := value, error := error, config := some ⟨some th⟩ } = .ok alerts := by
  unfold evaluateMetric
  simp only
  split
  · rename_i e he
    exfalso
    split at he
    all_goals simp [checkVIXAlerts, checkVIXTermStructureAlerts, checkCAPEAlerts,
        checkMarginDebtAlerts, checkMcclellanAlerts, checkPutCallAlerts, checkRSIAlerts,
        checkHighLowAlerts, checkFearGreedAlerts, checkAAIIAlerts, checkInsiderAlerts,
        checkYieldSpreadAlerts, checkCreditSpreadAlerts, checkDollarAlerts,
        checkNVDAPEAlerts, checkSemiETFAlerts] at he
  · exact ⟨_, rfl⟩

theorem evaluateMetric_no_value (rt : Runtime) (clock : Clock) (name : String)
    (error : Option String) (th : Thresholds) :
    evaluateMetric rt clock name
      { value := none, error := error, config := some ⟨some th⟩ } = .ok [] := by
  unfold evaluateMetric
  simp only
  split
  · rename_i e he
    exfalso
    split at he
    all_goals simp [checkVIXAlerts, checkVIXTermStructureAlerts, checkCAPEAlerts,
        checkMarginDebtAlerts, checkMcclellanAlerts, checkPutCallAlerts, checkRSIAlerts,
        checkHighLowAlerts, checkFearGreedAlerts, checkAAIIAlerts, checkInsiderAlerts,
        checkYieldSpreadAlerts, checkCreditSpreadAlerts, checkDollarAlerts,
        checkNVDAPEAlerts, checkSemiETFAlerts] at he
  · rename_i raw hraw
    split at hraw
    all_goals
      simp [checkVIXAlerts, checkVIXTermStructureAlerts, checkCAPEAlerts,
        checkMarginDebtAlerts, checkMcclellanAlerts, checkPutCallAlerts, checkRSIAlerts,
        checkHighLowAlerts, checkFearGreedAlerts, checkAAIIAlerts, checkInsiderAlerts,
        checkYieldSpreadAlerts, checkCreditSpreadAlerts, checkDollarAlerts,
        checkNVDAPEAlerts, checkSemiETFAlerts, jsGe, jsGt, jsLe] at hraw
    all_goals (subst hraw; rfl)

theorem checkAlerts_fst (rt : Runtime) (send : Transport) (clock : Clock) (s : Service)
    (metrics : Snapshot) :
    (checkAlerts rt send clock s metrics).1 =
      match collectAlerts rt clock metrics with
      | .ok alerts => alerts
      | .error _ => [] := by
  cases hgot : collectAlerts rt clock metrics with
  | error e => rw [checkAlerts_error rt send clock s metrics e hgot]
  | ok got => rw [checkAlerts_ok rt send clock s metrics got hgot]

theorem collectAlerts_filter_error (rt : Runtime) (clock : Clock) (metrics : Snapshot)
    (hshape : ∀ e ∈ metrics, e.2.error = some "" →
      e.2.value = none ∧ ∃ th, e.2.config = some ⟨some th⟩) :
    collectAlerts rt clock metrics =
      collectAlerts rt clock (metrics.filter fun e => e.2.error.isNone) := by
  induction metrics with
  | nil => rfl
  | cons e rest ih =>
    obtain ⟨name, data⟩ := e
    have ih' := ih (fun e he => hshape e (List.mem_cons_of_mem _ he))
    cases herr : data.error with
    | none =>
      have hno : hasError data = false := by simp [hasError, herr]
      simp only [List.filter_cons, herr, Option.isNone_none, if_true, collectAlerts, hno,
        Bool.false_eq_true, if_false]
      rw [ih']
    | some msg =>
      simp only [List.filter_cons, herr, Option.isNone_some, Bool.false_eq_true, if_false]
      by_cases hmsg : msg = ""
      · subst hmsg
        obtain ⟨hval, th, hcfg⟩ := hshape (name, data) (List.mem_cons_self _ _) herr
        have hno : hasError data = false := by simp [hasError, herr]
        have hdata : data = { value := none, error := some "", config := some ⟨some th⟩ } := by
          cases data
          simp_all
        simp only [collectAlerts, hno, Bool.false_eq_true, if_false]
        rw [hdata, evaluateMetric_no_value]
        simp only [List.nil_append]
        rw [← ih']
        cases collectAlerts rt clock rest <;> rfl
      · have hyes : hasError data = true := by simp [hasError, herr, hmsg]
        simp only [collectAlerts, hyes, if_true]
        exact ih'

theorem collectAlerts_source (rt : Runtime) (clock : Clock) (metrics : Snapshot)
    (alerts : List Alert) (h : collectAlerts rt clock metrics = .ok alerts) :
    ∀ a ∈ alerts, ∃ data, (a.metricName, data) ∈ metrics := by
  induction metrics generalizing alerts with
  | nil =>
    simp only [collectAlerts] at h
    injection h with h
    subst h
    intro a ha
    cases ha
  | cons e rest ih =>
    obtain ⟨name, data⟩ := e
    simp only [collectAlerts] at h
    split at h
    · intro a ha
      obtain ⟨d, hd⟩ := ih alerts h a ha
      exact ⟨d, List.mem_cons_of_mem _ hd⟩
    · split at h
      · cases h
      · rename_i metricAlerts hm
        split at h
        · cases h
        · rename_i restAlerts hr
          injection h with h
          subst h
          intro a ha
          rcases List.mem_append.mp ha with h1 | h2
          · obtain ⟨hn, _⟩ := evaluateMetric_metricName rt clock name data metricAlerts hm a h1
            exact ⟨data, by rw [hn]; exact List.mem_cons_self _ _⟩
          · obtain ⟨d, hd⟩ := ih restAlerts hr a h2
            exact ⟨d, List.mem_cons_of_mem _ hd⟩

theorem snapshot_entry_unique (metrics : Snapshot) (name : String) (d₁ d₂ : MetricData)
    (hnd : (metrics.map Prod.fst).Nodup) (h₁ : (name, d₁) ∈ metrics)
    (h₂ : (name, d₂) ∈ metrics) : d₁ = d₂ := by
  have hinj := List.inj_on_of_nodup_map hnd h₁ h₂ rfl
  exact (Prod.mk.inj hinj).2

theorem collectAlerts_error_of_mem (rt : Runtime) (clock : Clock) (metrics : Snapshot)
    (e : String × MetricData) (he : e ∈ metrics) (hno : hasError e.2 = false)
    (hfail : evaluateMetric rt clock e.1 e.2 = .error .typeError) :
    collectAlerts rt clock metrics = .error .typeError := by
  induction metrics with
  | nil => cases he
  | cons x rest ih =>
    obtain ⟨name, data⟩ := x
    simp only [collectAlerts]
    rcases List.mem_cons.mp he with hx | hin
    · subst hx
      simp only at hno hfail
      simp only [hno, Bool.false_eq_true, if_false, hfail]
    · have ih' := ih hin
      split
      · exact ih'
      · split
        · rename_i err _
          cases err
          rfl
        · rw [ih']

/-! ## The classifier: claims C11 to C18 -/

/-- C11.  For every metric name, value and threshold set `evaluateMetric` returns a
list, and the list holds at most one candidate; whenever `evaluateMetric` returns at
all, on any reading, the list holds at most one candidate. -/
theorem evaluateMetric_at_most_one (rt : Runtime) (clock : Clock) (name : String)
    (value : Option ℚ) (error : Option String) (th : Thresholds) :
    (∃ alerts, evaluateMetric rt clock name
        { value := value, error := error, config := some ⟨some th⟩ } = .ok alerts ∧
      alerts.length ≤ 1) ∧
    (∀ (data : MetricData) (alerts : List Alert),
      evaluateMetric rt clock name data = .ok alerts → alerts.length ≤ 1) := by
  constructor
  · obtain ⟨alerts, h⟩ := evaluateMetric_ok_of_thresholds rt clock name value error th
    exact ⟨alerts, h, evaluateMetric_length rt clock name _ alerts h⟩
  · intro data alerts h
    exact evaluateMetric_length rt clock name data alerts h

/-- C12.  For every VIX threshold set, in any order of its boundaries, and every value
at or above `thresholds.panic`, `checkVIXAlerts` returns exactly one candidate, of
type PANIC_BUYING_OPPORTUNITY and urgency HIGH. -/
theorem checkVIXAlerts_panic (rt : Runtime) (th : Thresholds) (v p : ℚ)
    (hp : th "panic" = some p) (hv : v ≥ p) :
    kinds (checkVIXAlerts rt (some v) (some th)) =
      some [("PANIC_BUYING_OPPORTUNITY", .HIGH)] := by
  simp [kinds, checkVIXAlerts, jsGe, hp, hv]

/-- C12, witness: value 42 with warning 20, danger 30, panic 40. -/
theorem checkVIXAlerts_panic_witness :
    kinds (checkVIXAlerts sampleRuntime (some 42) (some sampleVixThresholds)) =
      some [("PANIC_BUYING_OPPORTUNITY", .HIGH)] :=
  checkVIXAlerts_panic sampleRuntime sampleVixThresholds 42 40 (by decide) (by decide)

/-- C13.  With `warning < danger < panic`, a VIX value equal to `danger` is classified
CRASH_MODE, a value equal to `warning` is classified EARLY_CRASH and a value equal to
`panic` is classified PANIC_BUYING_OPPORTUNITY. -/
theorem checkVIXAlerts_boundary (rt : Runtime) (th : Thresholds) (w d p : ℚ)
    (hw : th "warning" = some w) (hd : th "danger" = some d) (hp : th "panic" = some p)
    (hwd : w < d) (hdp : d < p) :
    kinds (checkVIXAlerts rt (some d) (some th)) = some [("CRASH_MODE", .HIGH)] ∧
    kinds (checkVIXAlerts rt (some w) (some th)) = some [("EARLY_CRASH", .MEDIUM)] ∧
    kinds (checkVIXAlerts rt (some p) (some th)) =
      some [("PANIC_BUYING_OPPORTUNITY", .HIGH)] := by
  have h1 : ¬ p ≤ d := not_le.mpr hdp
  have h2 : ¬ p ≤ w := not_le.mpr (lt_trans hwd hdp)
  have h3 : ¬ d ≤ w := not_le.mpr hwd
  refine ⟨?_, ?_, ?_⟩ <;> simp [kinds, checkVIXAlerts, jsGe, hw, hd, hp, h1, h2, h3]

/-- C13, witness: VIX at 30, 20 and 40 with warning 20, danger 30, panic 40. -/
theorem checkVIXAlerts_boundary_witness :
    kinds (checkVIXAlerts sampleRuntime (some 30) (some sampleVixThresholds)) =
      some [("CRASH_MODE", .HIGH)] ∧
    kinds (checkVIXAlerts sampleRuntime (some 20) (some sampleVixThresholds)) =
      some [("EARLY_CRASH", .MEDIUM)] ∧
    kinds (checkVIXAlerts sampleRuntime (some 40) (some sampleVixThresholds)) =
      some [("PANIC_BUYING_OPPORTUNITY", .HIGH)] :=
  checkVIXAlerts_boundary sampleRuntime sampleVixThresholds 20 30 40 (by decide) (by decide)
    (by decide) (by decide) (by decide)

/-- C14, counterexample.  With overvalued 25 and bubble 35, the CAPE value 35 is at the
bubble boundary, yet `checkCAPEAlerts` returns BUBBLE_TERRITORY, not EXTREME_BUBBLE;
and the value 25, at the overvalued boundary, yields no candidate. -/
theorem checkCAPEAlerts_boundary_not_top :
    sampleCapeThresholds "bubble" = some 35 ∧ (35 : ℚ) ≥ 35 ∧
    kinds (checkCAPEAlerts sampleRuntime (some 35) (some sampleCapeThresholds)) =
      some [("BUBBLE_TERRITORY", .LOW)] ∧
    kinds (checkCAPEAlerts sampleRuntime (some 25) (some sampleCapeThresholds)) = some [] := by
  decide!

/-- C14, amended.  For every threshold set and value, `checkCAPEAlerts` returns
EXTREME_BUBBLE if the value is strictly above `thresholds.bubble`, otherwise
BUBBLE_TERRITORY if it is strictly above `thresholds.overvalued`, otherwise no
candidate; a value equal to `thresholds.bubble` is not classified EXTREME_BUBBLE. -/
theorem checkCAPEAlerts_cascade (rt : Runtime) (th : Thresholds) (v b o : ℚ)
    (hb : th "bubble" = some b) (ho : th "overvalued" = some o) :
    kinds (checkCAPEAlerts rt (some v) (some th)) =
      some (if v > b then [("EXTREME_BUBBLE", .MEDIUM)]
        else if v > o then [("BUBBLE_TERRITORY", .LOW)] else []) ∧
    kinds (checkCAPEAlerts rt (some b) (some th)) =
      some (if b > o then [("BUBBLE_TERRITORY", .LOW)] else []) := by
  constructor
  · simp only [kinds, checkCAPEAlerts, jsGt, hb, ho]
    split_ifs <;> simp_all
  · simp only [kinds, checkCAPEAlerts, jsGt, hb, ho]
    split_ifs <;> simp_all

/-- C14, witness of the amended statement: CAPE at 35 with overvalued 25, bubble 35. -/
theorem checkCAPEAlerts_cascade_witness :
    kinds (checkCAPEAlerts sampleRuntime (some 35) (some sampleCapeThresholds)) =
      some (if (35 : ℚ) > 35 then [("EXTREME_BUBBLE", .MEDIUM)]
        else if (35 : ℚ) > 25 then [("BUBBLE_TERRITORY", .LOW)] else []) ∧
    kinds (checkCAPEAlerts sampleRuntime (some 35) (some sampleCapeThresholds)) =
      some (if (35 : ℚ) > 25 then [("BUBBLE_TERRITORY", .LOW)] else []) :=
  checkCAPEAlerts_cascade sampleRuntime sampleCapeThresholds 35 35 25 (by decide) (by decide)

/-- C15.  For every threshold set and value, `checkPutCallAlerts` returns
MAXIMUM_PESSIMISM if the value is at or above `extreme`, else PANIC_SELLING if at or
above `panic`, else FEAR_BUILDING if at or above `fear`, else nothing; and
`checkCreditSpreadAlerts` returns CREDIT_CRISIS if the value is at or above `crisis`,
else CREDIT_STRESS if at or above `stress`, else nothing. -/
theorem putCall_creditSpread_cascade (rt : Runtime) (thPutCall thCredit : Thresholds)
    (v e p f c s : ℚ)
    (he : thPutCall "extreme" = some e) (hp : thPutCall "panic" = some p)
    (hf : thPutCall "fear" = some f)
    (hc : thCredit "crisis" = some c) (hs : thCredit "stress" = some s) :
    kinds (checkPutCallAlerts rt (some v) (some thPutCall)) =
      some (if v ≥ e then [("MAXIMUM_PESSIMISM", .HIGH)]
        else if v ≥ p then [("PANIC_SELLING", .HIGH)]
        else if v ≥ f then [("FEAR_BUILDING", .MEDIUM)] else []) ∧
    kinds (checkCreditSpreadAlerts rt (some v) (some thCredit)) =
      some (if v ≥ c then [("CREDIT_CRISIS", .HIGH)]
        else if v ≥ s then [("CREDIT_STRESS", .MEDIUM)] else []) := by
  constructor
  · simp only [kinds, checkPutCallAlerts, jsGe, he, hp, hf]
    split_ifs <;> simp_all
  · simp only [kinds, checkCreditSpreadAlerts, jsGe, hc, hs]
    split_ifs <;> simp_all

/-- C15, witness: the value 250 with the thresholds of `marketData.js`. -/
theorem putCall_creditSpread_cascade_witness :
    kinds (checkPutCallAlerts sampleRuntime (some 250) (some samplePutCallThresholds)) =
      some (if (250 : ℚ) ≥ 2 then [("MAXIMUM_PESSIMISM", .HIGH)]
        else if (250 : ℚ) ≥ 3 / 2 then [("PANIC_SELLING", .HIGH)]
        else if (250 : ℚ) ≥ 1 then [("FEAR_BUILDING", .MEDIUM)] else []) ∧
    kinds (checkCreditSpreadAlerts sampleRuntime (some 250) (some sampleCreditThresholds)) =
      some (if (250 : ℚ) ≥ 300 then [("CREDIT_CRISIS", .HIGH)]
        else if (250 : ℚ) ≥ 200 then [("CREDIT_STRESS", .MEDIUM)] else []) :=
  putCall_creditSpread_cascade sampleRuntime samplePutCallThresholds sampleCreditThresholds
    250 2 (3 / 2) 1 300 200 (by decide) (by decide!) (by decide) (by decide) (by decide)

/-- C16.  For every threshold set and value: RSI, McClellan, Fear-Greed, High-Low and
Yield-Spread emit their most extreme candidate exactly when the value is at or below
the most extreme boundary; RSI, McClellan, High-Low and Yield-Spread emit their milder
candidate exactly when the value is above the most extreme boundary and at or below
the milder one. -/
theorem lowerIsWorse_cascade (rt : Runtime) (thRsi thMc thFg thHl thYs : Thresholds)
    (v x o cap ovs fear hcap weak rec inv : ℚ)
    (hx : thRsi "extreme" = some x) (ho : thRsi "oversold" = some o)
    (hcapm : thMc "capitulation" = some cap) (hovs : thMc "oversold" = some ovs)
    (hfear : thFg "fear" = some fear)
    (hhcap : thHl "capitulation" = some hcap) (hweak : thHl "weakness" = some weak)
    (hrec : thYs "recession" = some rec) (hinv : thYs "inversion" = some inv) :
    ((kinds (checkRSIAlerts rt (some v) (some thRsi)) = some [("EXTREME_OVERSOLD_RSI", .HIGH)]
        ↔ v ≤ x) ∧
     (kinds (checkRSIAlerts rt (some v) (some thRsi)) = some [("OVERSOLD_RSI", .MEDIUM)]
        ↔ x < v ∧ v ≤ o)) ∧
    ((kinds (checkMcclellanAlerts rt (some v) (some thMc)) = some [("CAPITULATION", .HIGH)]
        ↔ v ≤ cap) ∧
     (kinds (checkMcclellanAlerts rt (some v) (some thMc)) =
        some [("OVERSOLD_BREADTH", .MEDIUM)] ↔ cap < v ∧ v ≤ ovs)) ∧
    (kinds (checkFearGreedAlerts rt (some v) (some thFg)) = some [("EXTREME_FEAR", .HIGH)]
        ↔ v ≤ fear) ∧
    ((kinds (checkHighLowAlerts rt (some v) (some thHl)) =
        some [("HIGH_LOW_CAPITULATION", .HIGH)] ↔ v ≤ hcap) ∧
     (kinds (checkHighLowAlerts rt (some v) (some thHl)) = some [("BROAD_WEAKNESS", .MEDIUM)]
        ↔ hcap < v ∧ v ≤ weak)) ∧
    ((kinds (checkYieldSpreadAlerts rt (some v) (some thYs)) = some [("DEEP_INVERSION", .HIGH)]
        ↔ v ≤ rec) ∧
     (kinds (checkYieldSpreadAlerts rt (some v) (some thYs)) =
        some [("YIELD_INVERSION", .MEDIUM)] ↔ rec < v ∧ v ≤ inv)) := by
  refine ⟨⟨?_, ?_⟩, ⟨?_, ?_⟩, ?_, ⟨?_, ?_⟩, ⟨?_, ?_⟩⟩
  · simp only [kinds, checkRSIAlerts, jsLe, hx, ho]
    split_ifs <;> simp_all
  · simp only [kinds, checkRSIAlerts, jsLe, hx, ho]
    split_ifs <;> simp_all
  · simp only [kinds, checkMcclellanAlerts, jsLe, hcapm, hovs]
    split_ifs <;> simp_all
  · simp only [kinds, checkMcclellanAlerts, jsLe, hcapm, hovs]
    split_ifs <;> simp_all
  · simp only [kinds, checkFearGreedAlerts, jsLe, hfear]
    split_ifs <;> simp_all
  · simp only [kinds, checkHighLowAlerts, jsLe, hhcap, hweak]
    split_ifs <;> simp_all
  · simp only [kinds, checkHighLowAlerts, jsLe, hhcap, hweak]
    split_ifs <;> simp_all
  · simp only [kinds, checkYieldSpreadAlerts, jsLe, hrec, hinv]
    split_ifs <;> simp_all
  · simp only [kinds, checkYieldSpreadAlerts, jsLe, hrec, hinv]
    split_ifs <;> simp_all

/-- C16, witness: the value 15 with the thresholds of `marketData.js`. -/
theorem lowerIsWorse_cascade_witness :
    ((kinds (checkRSIAlerts sampleRuntime (some 15) (some sampleRsiThresholds)) =
        some [("EXTREME_OVERSOLD_RSI", .HIGH)] ↔ (15 : ℚ) ≤ 20) ∧
     (kinds (checkRSIAlerts sampleRuntime (some 15) (some sampleRsiThresholds)) =
        some [("OVERSOLD_RSI", .MEDIUM)] ↔ (20 : ℚ) < 15 ∧ (15 : ℚ) ≤ 30)) ∧
    ((kinds (checkMcclellanAlerts sampleRuntime (some 15) (some sampleMcclellanThresholds)) =
        some [("CAPITULATION", .HIGH)] ↔ (15 : ℚ) ≤ -150) ∧
     (kinds (checkMcclellanAlerts sampleRuntime (some 15) (some sampleMcclellanThresholds)) =
        some [("OVERSOLD_BREADTH", .MEDIUM)] ↔ (-150 : ℚ) < 15 ∧ (15 : ℚ) ≤ -100)) ∧
    (kinds (checkFearGreedAlerts sampleRuntime (some 15) (some sampleFearGreedThresholds)) =
        some [("EXTREME_FEAR", .HIGH)] ↔ (15 : ℚ) ≤ 20) ∧
    ((kinds (checkHighLowAlerts sampleRuntime (some 15) (some sampleHighLowThresholds)) =
        some [("HIGH_LOW_CAPITULATION", .HIGH)] ↔ (15 : ℚ) ≤ -4 / 5) ∧
     (kinds (checkHighLowAlerts sampleRuntime (some 15) (some sampleHighLowThresholds)) =
        some [("BROAD_WEAKNESS", .MEDIUM)] ↔ (-4 / 5 : ℚ) < 15 ∧ (15 : ℚ) ≤ -1 / 2)) ∧
    ((kinds (checkYieldSpreadAlerts sampleRuntime (some 15)
        (some sampleYieldSpreadThresholds)) = some [("DEEP_INVERSION", .HIGH)]
        ↔ (15 : ℚ) ≤ -1 / 2) ∧
     (kinds (checkYieldSpreadAlerts sampleRuntime (some 15)
        (some sampleYieldSpreadThresholds)) = some [("YIELD_INVERSION", .MEDIUM)]
        ↔ (-1 / 2 : ℚ) < 15 ∧ (15 : ℚ) ≤ 0)) :=
  lowerIsWorse_cascade sampleRuntime sampleRsiThresholds sampleMcclellanThresholds
    sampleFearGreedThresholds sampleHighLowThresholds sampleYieldSpreadThresholds
    15 20 30 (-150) (-100) 20 (-4 / 5) (-1 / 2) (-1 / 2) 0
    (by decide) (by decide) (by decide!) (by decide!) (by decide) (by decide!) (by decide!)
    (by decide!) (by decide)

/-- C17, counterexample.  The CAPE value 40 passes the test of CAPE's most severe tier
(above bubble 35), and the candidate that `evaluateMetric` emits, EXTREME_BUBBLE, has
urgency MEDIUM. -/
theorem top_tier_not_always_high :
    topTierTest "cape" (some 40) sampleCapeThresholds = true ∧
    alertKinds (evaluateMetric sampleRuntime (sampleClock 1000) "cape"
        { value := some 40, error := none, config := some ⟨some sampleCapeThresholds⟩ })
      = some [("EXTREME_BUBBLE", .MEDIUM)] := by
  decide!

/-- C17, amended.  For every family that reads its thresholds and every value that
passes the family's most severe tier test, `evaluateMetric` emits exactly one
candidate; its urgency is MEDIUM for CAPE, AAII bulls and the dollar index, and HIGH
for every other family. -/
theorem top_tier_urgency (rt : Runtime) (clock : Clock) (name : String) (value : Option ℚ)
    (error : Option String) (th : Thresholds) (htop : topTierTest name value th = true) :
    ∃ a, evaluateMetric rt clock name
        { value := value, error := error, config := some ⟨some th⟩ } = .ok [a] ∧
      a.urgency =
        (if name = "cape" ∨ name = "aaiiBulls" ∨ name = "dollarIndex" then Urgency.MEDIUM
         else Urgency.HIGH) := by
  unfold topTierTest at htop
  split at htop
  all_goals first
    | exact Bool.noConfusion htop
    | simp [evaluateMetric, checkVIXAlerts, checkCAPEAlerts, checkMcclellanAlerts,
        checkPutCallAlerts, checkRSIAlerts, checkHighLowAlerts, checkFearGreedAlerts,
        checkAAIIAlerts, checkInsiderAlerts, checkYieldSpreadAlerts,
        checkCreditSpreadAlerts, checkDollarAlerts, checkSemiETFAlerts, htop]

/-- C17, witness of the amended statement: VIX at 42 is in its top tier and HIGH. -/
theorem top_tier_urgency_witness :
    ∃ a, evaluateMetric sampleRuntime (sampleClock 1000) "vix"
        { value := some 42, error := none, config := some ⟨some sampleVixThresholds⟩ }
        = .ok [a] ∧
      a.urgency =
        (if "vix" = "cape" ∨ "vix" = "aaiiBulls" ∨ "vix" = "dollarIndex" then Urgency.MEDIUM
         else Urgency.HIGH) :=
  top_tier_urgency sampleRuntime (sampleClock 1000) "vix" (some 42) none sampleVixThresholds
    (by decide)

/-- C18, counterexample.  For VIX at 42 with a config that has no thresholds,
`evaluateMetric` raises a TypeError instead of returning the empty list. -/
theorem evaluateMetric_no_thresholds_raises :
    sampleNoThresholds.config.map (fun c => c.thresholds.isNone) = some true ∧
    alertKinds (evaluateMetric sampleRuntime (sampleClock 1000) "vix" sampleNoThresholds)
      = none ∧
    alertKinds (evaluateMetric sampleRuntime (sampleClock 1000) "vix" sampleNoThresholds)
      ≠ some [] := by
  decide!

/-- C18, amended.  When `config.thresholds` is absent, `evaluateMetric` raises for every
metric whose classifier reads its thresholds; it does not raise for the other names:
for vixTermStructure it emits VIX_BACKWARDATION exactly when the value is positive, and
for marginDebt, nvdaPE and the names it does not handle it returns the empty list. -/
theorem evaluateMetric_no_thresholds (rt : Runtime) (clock : Clock) (name : String)
    (value : Option ℚ) (error : Option String) :
    alertKinds (evaluateMetric rt clock name
        { value := value, error := error, config := some ⟨none⟩ }) =
      if readsThresholds name = true then none
      else if name = "vixTermStructure" ∧ jsGt value (some 0) = true then
        some [("VIX_BACKWARDATION", .HIGH)]
      else some [] := by
  unfold evaluateMetric
  simp only
  split
  · rename_i e he
    split at he
    all_goals first
      | (simp [alertKinds, readsThresholds]; done)
      | (exfalso
         simp [checkVIXTermStructureAlerts, checkMarginDebtAlerts, checkNVDAPEAlerts] at he)
  · rename_i raw hraw
    split at hraw
    all_goals first
      | (exfalso
         simp [checkVIXAlerts, checkCAPEAlerts, checkMcclellanAlerts,
           checkPutCallAlerts, checkRSIAlerts, checkHighLowAlerts, checkFearGreedAlerts,
           checkAAIIAlerts, checkInsiderAlerts, checkYieldSpreadAlerts,
           checkCreditSpreadAlerts, checkDollarAlerts, checkSemiETFAlerts] at hraw
         done)
      | (simp only [checkVIXTermStructureAlerts, checkMarginDebtAlerts, checkNVDAPEAlerts,
           Except.ok.injEq] at hraw
         subst hraw
         simp_all [alertKinds, readsThresholds]
         try (split_ifs <;> simp))

/-! ## Errors in the snapshot: claims C19 and C20 -/

/-- C19.  In a snapshot with distinct metric names, where an entry whose error message
is the empty string has no value and a config with thresholds (the shape `getAllMetrics`
gives a failed fetch), the candidate list returned by `checkAlerts` holds no candidate
for a metric whose entry carries an error, and it is the list returned for the
snapshot without the entries that carry an error. -/
theorem checkAlerts_skips_errors (rt : Runtime) (send : Transport) (clock : Clock)
    (s : Service) (metrics : Snapshot)
    (hnames : (metrics.map Prod.fst).Nodup)
    (hshape : ∀ e ∈ metrics, e.2.error = some "" →
      e.2.value = none ∧ ∃ th, e.2.config = some ⟨some th⟩) :
    (∀ a ∈ (checkAlerts rt send clock s metrics).1, ∀ e ∈ metrics,
      e.2.error.isSome = true → a.metricName ≠ e.1) ∧
    (checkAlerts rt send clock s metrics).1 =
      (checkAlerts rt send clock s (metrics.filter fun e => e.2.error.isNone)).1 := by
  have hfilter := collectAlerts_filter_error rt clock metrics hshape
  refine ⟨?_, ?_⟩
  · intro a ha e he herr hname
    rw [checkAlerts_fst, hfilter] at ha
    cases hgot : collectAlerts rt clock (metrics.filter fun e => e.2.error.isNone) with
    | error err =>
      rw [hgot] at ha
      cases ha
    | ok got =>
      rw [hgot] at ha
      obtain ⟨d, hd⟩ := collectAlerts_source rt clock _ got hgot a ha
      obtain ⟨hdm, hdnone⟩ := List.mem_filter.mp hd
      have heq := snapshot_entry_unique metrics a.metricName d e.2 hnames hdm
        (by rw [hname]; exact he)
      rw [heq] at hdnone
      simp only at hdnone
      cases hx : e.2.error with
      | none => rw [hx] at herr; cases herr
      | some m => rw [hx] at hdnone; cases hdnone
  · rw [checkAlerts_fst, checkAlerts_fst, hfilter]

/-- C19, witness: the RSI entry carries an error and VIX is at 42. -/
theorem checkAlerts_skips_errors_witness :
    (∀ a ∈ (checkAlerts sampleRuntime okTransport (sampleClock 1000) emptyService
        sampleErrorSnapshot).1, ∀ e ∈ sampleErrorSnapshot,
      e.2.error.isSome = true → a.metricName ≠ e.1) ∧
    (checkAlerts sampleRuntime okTransport (sampleClock 1000) emptyService
        sampleErrorSnapshot).1 =
      (checkAlerts sampleRuntime okTransport (sampleClock 1000) emptyService
        (sampleErrorSnapshot.filter fun e => e.2.error.isNone)).1 :=
  checkAlerts_skips_errors sampleRuntime okTransport (sampleClock 1000) emptyService
    sampleErrorSnapshot (by decide)
    (by
      intro e he hempty
      simp only [sampleErrorSnapshot, List.mem_cons, List.mem_singleton, List.not_mem_nil,
        or_false] at he
      rcases he with rfl | rfl <;> simp at hempty)

/-- C20, counterexample.  In the snapshot with VIX at 42 and a CAPE reading whose config
has no thresholds, the evaluation of CAPE fails; `checkAlerts` returns the empty list,
while for the snapshot without the CAPE entry it returns the VIX candidate. -/
theorem checkAlerts_failure_not_isolated :
    alertKinds (evaluateMetric sampleRuntime (sampleClock 1000) "cape"
      { value := some 40, error := none, config := some ⟨none⟩ }) = none ∧
    (checkAlerts sampleRuntime okTransport (sampleClock 1000) emptyService
      sampleFailingSnapshot).1 = [] ∧
    (checkAlerts sampleRuntime okTransport (sampleClock 1000) emptyService
      (sampleFailingSnapshot.filter fun e => e.1 ≠ "cape")).1 = [sampleAlert] := by
  decide!

/-- C20, amended.  When the evaluation of one metric of the snapshot that carries no
error raises, `checkAlerts` catches the exception for the whole cycle: it returns the
empty list, whatever the other metrics would have produced, sends no composite
notification and leaves the cooldown store as it was. -/
theorem checkAlerts_failure_aborts_cycle (rt : Runtime) (send : Transport) (clock : Clock)
    (s : Service) (metrics : Snapshot) (e : String × MetricData) (he : e ∈ metrics)
    (hno : hasError e.2 = false)
    (hfail : evaluateMetric rt clock e.1 e.2 = .error .typeError) :
    checkAlerts rt send clock s metrics = ([], s) :=
  checkAlerts_error rt send clock s metrics .typeError
    (collectAlerts_error_of_mem rt clock metrics e he hno hfail)

/-- C20, witness of the amended statement on the snapshot with the failing CAPE entry. -/
theorem checkAlerts_failure_aborts_cycle_witness :
    checkAlerts sampleRuntime okTransport (sampleClock 1000) emptyService
      sampleFailingSnapshot = ([], emptyService) :=
  checkAlerts_failure_aborts_cycle sampleRuntime okTransport (sampleClock 1000) emptyService
    sampleFailingSnapshot ("cape", { value := some 40, error := none, config := some ⟨none⟩ })
    (by simp [sampleFailingSnapshot]) (by decide)
    (by simp [evaluateMetric, checkCAPEAlerts])

/-! ## Lemmas for the remaining claims -/

theorem evaluateMetric_clock (rt : Runtime) (clock clock' : Clock) (name : String)
    (data : MetricData) :
    evaluateMetric rt clock' name data =
      match evaluateMetric rt clock name data with
      | .ok alerts => .ok (alerts.map (withTimestamp clock'.iso))
      | .error e => .error e := by
  unfold evaluateMetric
  split
  · rfl
  · simp only
    split
    · rfl
    · simp [withTimestamp, List.map_map, Function.comp_def]

theorem collectAlerts_clock (rt : Runtime) (clock clock' : Clock) (metrics : Snapshot) :
    collectAlerts rt clock' metrics =
      match collectAlerts rt clock metrics with
      | .ok alerts => .ok (alerts.map (withTimestamp clock'.iso))
      | .error e => .error e := by
  induction metrics with
  | nil => rfl
  | cons e rest ih =>
    obtain ⟨name, data⟩ := e
    simp only [collectAlerts]
    split
    · exact ih
    · rw [evaluateMetric_clock rt clock clock' name data, ih]
      cases evaluateMetric rt clock name data with
      | error e => rfl
      | ok m =>
        cases collectAlerts rt clock rest with
        | error e => rfl
        | ok r => simp

theorem urgentLines_eq (message : String) (index : Nat) (alerts : List Alert) :
    urgentLines message index alerts = message ++ concatLines (urgentLineList index alerts) := by
  induction alerts generalizing message index with
  | nil => simp [urgentLines, urgentLineList, concatLines]
  | cons a rest ih =>
    simp only [urgentLines, urgentLineList, concatLines]
    rw [ih, String.append_assoc]
    rfl

theorem urgentLineList_length (index : Nat) (alerts : List Alert) :
    (urgentLineList index alerts).length = alerts.length := by
  induction alerts generalizing index with
  | nil => rfl
  | cons a rest ih => simp [urgentLineList, ih]

theorem urgentLineList_get (index i : Nat) (alerts : List Alert) (a : Alert)
    (h : alerts.get? i = some a) :
    (urgentLineList index alerts).get? i = some (urgentLineOf (index + i) a) := by
  induction alerts generalizing index i with
  | nil => simp at h
  | cons b rest ih =>
    cases i with
    | zero =>
      simp only [List.get?_cons_zero, Option.some.injEq] at h
      subst h
      simp [urgentLineList]
    | succ n =>
      simp only [List.get?_cons_succ] at h
      simp only [urgentLineList, List.get?_cons_succ]
      rw [ih (index + 1) n h]
      congr 2
      omega

theorem sendAllResults_length (rt : Runtime) (send : Transport) (clocks : Nat → Clock × Clock)
    (alerts : List Alert) (i : Nat) (s : Service) :
    (sendAllResults rt send clocks i s alerts).length = alerts.length := by
  induction alerts generalizing i s with
  | nil => rfl
  | cons a rest ih => simp [sendAllResults, ih]

theorem sendAll_sent_length (rt : Runtime) (send : Transport) (clocks : Nat → Clock × Clock)
    (alerts : List Alert) (i : Nat) (s : Service) :
    (sendAll rt send clocks i s alerts).sent.length ≤ s.sent.length + alerts.length := by
  induction alerts generalizing i s with
  | nil => simp [sendAll]
  | cons a rest ih =>
    simp only [sendAll, List.length_cons]
    have := ih (i + 1) (sendAlert rt send (clocks i).1 (clocks i).2 s a).2
    rcases sendAlert_cases rt send (clocks i).1 (clocks i).2 s a with h | h | ⟨_, h⟩ <;>
      rw [h] at this ⊢ <;> simp at this ⊢ <;> omega

theorem sendAll_attempts_passing (rt : Runtime) (send : Transport)
    (clocks : Nat → Clock × Clock) (alerts : List Alert) (i : Nat) (s : Service) (a : Alert)
    (base : List String) (hbase : s.sent.length = base.length)
    (ha : a ∈ alerts) (hkeys : (alerts.map alertKey).Nodup)
    (hpass : ∀ j, shouldSendAlert s.alertHistory (clocks j).1.now a = true) :
    ∃ j, formatAlertMessage rt (clocks j).1 a ∈
      ((sendAll rt send clocks i s alerts).sent.drop base.length) := by
  induction alerts generalizing i s base with
  | nil => cases ha
  | cons b bs ih =>
    simp only [List.map_cons, List.nodup_cons] at hkeys
    simp only [sendAll]
    rcases List.mem_cons.mp ha with rfl | hin
    · refine ⟨i, ?_⟩
      obtain ⟨rest, hrest, _⟩ := sendAll_sent rt send clocks bs (i + 1)
        (sendAlert rt send (clocks i).1 (clocks i).2 s a).2
      rw [hrest, ← hbase]
      cases hsend : send (formatAlertMessage rt (clocks i).1 a) with
      | true =>
        rw [sendAlert_pass_ok rt send (clocks i).1 (clocks i).2 s a (hpass i) hsend]
        simp
      | false =>
        rw [sendAlert_pass_fail rt send (clocks i).1 (clocks i).2 s a (hpass i) hsend]
        simp
    · have hne : alertKey a ≠ alertKey b := by
        intro heq
        exact hkeys.1 (heq ▸ List.mem_map_of_mem alertKey hin)
      rcases sendAlert_cases rt send (clocks i).1 (clocks i).2 s b with h | h | ⟨_, h⟩
      · rw [h]
        exact ih (i + 1) s base hbase hin hkeys.2 hpass
      · rw [h]
        obtain ⟨j, hj⟩ := ih (i + 1)
          { s with sent := s.sent ++ [formatAlertMessage rt (clocks i).1 b] }
          (base ++ [""]) (by simp [hbase]) hin hkeys.2 hpass
        refine ⟨j, ?_⟩
        have hsub := List.drop_sublist 1 (List.drop base.length (sendAll rt send clocks (i + 1)
          { s with sent := s.sent ++ [formatAlertMessage rt (clocks i).1 b] } bs).sent)
        rw [List.drop_drop] at hsub
        apply hsub.subset
        simpa [Nat.add_comm] using hj
      · rw [h]
        obtain ⟨j, hj⟩ := ih (i + 1)
          { alertHistory := recordAlert s.alertHistory (clocks i).2.now b
            sent := s.sent ++ [formatAlertMessage rt (clocks i).1 b] }
          (base ++ [""]) (by simp [hbase]) hin hkeys.2
          (fun j => shouldSendAlert_after_other s.alertHistory _ _ b a hne (hpass j))
        refine ⟨j, ?_⟩
        have hsub := List.drop_sublist 1 (List.drop base.length (sendAll rt send clocks (i + 1)
          { alertHistory := recordAlert s.alertHistory (clocks i).2.now b
            sent := s.sent ++ [formatAlertMessage rt (clocks i).1 b] } bs).sent)
        rw [List.drop_drop] at hsub
        apply hsub.subset
        simpa [Nat.add_comm] using hj

theorem type_eq_of_alertKey_eq (a b : Alert) (hm : a.metricName = b.metricName)
    (h : alertKey a = alertKey b) : a.type = b.type := by
  have hd := congrArg String.data h
  simp only [alertKey, String.data_append, hm, List.append_assoc] at hd
  have := List.append_cancel_left (List.append_cancel_left hd)
  exact String.ext this

theorem keys_tail (h : AlertHistory) : keys h.tail = (keys h).tail := by
  cases h <;> rfl

/-! ## Dispatch loop, idempotence and composite text: claims C21 to C23 -/

/-- C21.  Whatever the outcomes of the transport, the dispatch loop of
`performMarketCheck` calls `sendAlert` once for every candidate of the list, each call
returning a value, and calls the transport at most once per candidate; a candidate that
passes `shouldSendAlert` has its notification passed to the transport even when the
dispatch of an earlier candidate failed. -/
theorem dispatch_failures_isolated (rt : Runtime) (send : Transport) (clock : Clock)
    (clocks : Nat → Clock × Clock) (s : Service) (metrics : Snapshot) (alerts : List Alert)
    (a : Alert) (ha : a ∈ alerts) (hkeys : (alerts.map alertKey).Nodup)
    (hpass : ∀ j, shouldSendAlert s.alertHistory (clocks j).1.now a = true) :
    performMarketCheck rt send clock clocks s metrics =
      sendAll rt send clocks 0 (checkAlerts rt send clock s metrics).2
        (checkAlerts rt send clock s metrics).1 ∧
    (sendAllResults rt send clocks 0 s alerts).length = alerts.length ∧
    (sendAll rt send clocks 0 s alerts).sent.length ≤ s.sent.length + alerts.length ∧
    ∃ j, formatAlertMessage rt (clocks j).1 a ∈
      (sendAll rt send clocks 0 s alerts).sent.drop s.sent.length :=
  ⟨rfl, sendAllResults_length rt send clocks alerts 0 s,
    sendAll_sent_length rt send clocks alerts 0 s,
    sendAll_attempts_passing rt send clocks alerts 0 s a s.sent rfl ha hkeys hpass⟩

/-- C21, witness: the transport rejects the VIX notification, and the put/call
notification that follows it is still passed to the transport. -/
theorem dispatch_failures_isolated_witness :
    performMarketCheck sampleRuntime sampleFlakyTransport (sampleClock 1000) sampleClocks
        emptyService sampleSnapshot =
      sendAll sampleRuntime sampleFlakyTransport sampleClocks 0
        (checkAlerts sampleRuntime sampleFlakyTransport (sampleClock 1000) emptyService
          sampleSnapshot).2
        (checkAlerts sampleRuntime sampleFlakyTransport (sampleClock 1000) emptyService
          sampleSnapshot).1 ∧
    (sendAllResults sampleRuntime sampleFlakyTransport sampleClocks 0 emptyService
      [sampleAlert, samplePutCallAlert]).length = [sampleAlert, samplePutCallAlert].length ∧
    (sendAll sampleRuntime sampleFlakyTransport sampleClocks 0 emptyService
      [sampleAlert, samplePutCallAlert]).sent.length ≤
        emptyService.sent.length + [sampleAlert, samplePutCallAlert].length ∧
    ∃ j, formatAlertMessage sampleRuntime (sampleClocks j).1 samplePutCallAlert ∈
      (sendAll sampleRuntime sampleFlakyTransport sampleClocks 0 emptyService
        [sampleAlert, samplePutCallAlert]).sent.drop emptyService.sent.length :=
  dispatch_failures_isolated sampleRuntime sampleFlakyTransport (sampleClock 1000)
    sampleClocks emptyService sampleSnapshot [sampleAlert, samplePutCallAlert]
    samplePutCallAlert (by simp) (by decide) (fun _ => rfl)

/-- C22, counterexample.  Two calls of `checkAlerts` on the same snapshot, half an hour
apart and with no `recordAlert` in between, return candidate lists that differ: the
`timestamp` field of the candidate holds the clock reading of each call. -/
theorem checkAlerts_repeat_differs :
    (checkAlerts sampleRuntime okTransport (sampleClock 1000) emptyService
      sampleSingleSnapshot).2.alertHistory = emptyService.alertHistory ∧
    (checkAlerts sampleRuntime okTransport (sampleClock 1000) emptyService
      sampleSingleSnapshot).1 ≠
    (checkAlerts sampleRuntime okTransport sampleLaterClock
      (checkAlerts sampleRuntime okTransport (sampleClock 1000) emptyService
        sampleSingleSnapshot).2 sampleSingleSnapshot).1 := by
  decide!

/-- C22, amended.  Two calls of `checkAlerts`, and of `evaluateMetric`, on the same
snapshot return candidate lists that agree in every field except `timestamp`, which
holds the clock reading of the call: the second list is the first with the timestamps
replaced.  The lists are identical when both calls read the same clock value, whatever
the cooldown store and the transport are. -/
theorem checkAlerts_repeat (rt : Runtime) (send send' : Transport) (clock clock' : Clock)
    (s s' : Service) (metrics : Snapshot) :
    (checkAlerts rt send' clock' s' metrics).1 =
      (checkAlerts rt send clock s metrics).1.map (withTimestamp clock'.iso) ∧
    (clock'.iso = clock.iso →
      (checkAlerts rt send' clock' s' metrics).1 = (checkAlerts rt send clock s metrics).1) ∧
    (∀ (name : String) (data : MetricData),
      evaluateMetric rt clock' name data =
        match evaluateMetric rt clock name data with
        | .ok alerts => .ok (alerts.map (withTimestamp clock'.iso))
        | .error e => .error e) := by
  have key : ∀ (sd sd' : Transport) (c c' : Clock) (t t' : Service),
      (checkAlerts rt sd' c' t' metrics).1 =
        (checkAlerts rt sd c t metrics).1.map (withTimestamp c'.iso) := by
    intro sd sd' c c' t t'
    rw [checkAlerts_fst, checkAlerts_fst, collectAlerts_clock rt c c' metrics]
    cases collectAlerts rt c metrics <;> rfl
  refine ⟨key send send' clock clock' s s', ?_, fun name data =>
    evaluateMetric_clock rt clock clock' name data⟩
  intro hiso
  rw [key send send' clock clock' s s', hiso]
  exact (key send send clock clock s s).symm

/-- C23.  The text passed to the transport by `checkAlerts` is `formatUrgentAlert` of
the candidates of urgency HIGH, a sublist of the candidate list in its order holding
exactly its HIGH members; the text is the two header lines, one line per candidate and
the footer, and line `i` is numbered `i + 1` (from 1) and shows the emoji and message
of the candidate at position `i`. -/
theorem composite_lists_high_in_order (rt : Runtime) (send : Transport) (clock : Clock)
    (s : Service) (metrics : Snapshot) :
    (checkAlerts rt send clock s metrics).2.sent =
      (if (checkAlerts rt send clock s metrics).1.filter (fun a => a.urgency = .HIGH) = []
       then s.sent
       else s.sent ++ [formatUrgentAlert clock
        ((checkAlerts rt send clock s metrics).1.filter fun a => a.urgency = .HIGH)]) ∧
    ((checkAlerts rt send clock s metrics).1.filter fun a => a.urgency = .HIGH).Sublist
      (checkAlerts rt send clock s metrics).1 ∧
    (∀ a, a ∈ (checkAlerts rt send clock s metrics).1.filter (fun a => a.urgency = .HIGH) ↔
      a ∈ (checkAlerts rt send clock s metrics).1 ∧ a.urgency = .HIGH) ∧
    (∀ high : List Alert,
      formatUrgentAlert clock high =
        "🚨 <b>URGENT MARKET ALERT</b> 🚨\n\n" ++
          "<b>Multiple high-urgency signals detected:</b>\n\n" ++
          concatLines (urgentLineList 0 high) ++
          "\n⚠️ <b>IMMEDIATE ACTION REQUIRED</b> ⚠️\n" ++
          ("<i>⏰ " ++ clock.timeLabel ++ "</i>") ∧
      (urgentLineList 0 high).length = high.length ∧
      ∀ (i : Nat) (a : Alert), high.get? i = some a →
        (urgentLineList 0 high).get? i =
          some (toString (i + 1) ++ ". " ++ a.emoji ++ " " ++ a.message ++ "\n")) := by
  refine ⟨?_, List.filter_sublist _, ?_, ?_⟩
  · rw [checkAlerts_snd]
    split <;> rfl
  · intro a
    simp [List.mem_filter]
  · intro high
    refine ⟨?_, urgentLineList_length 0 high, ?_⟩
    · simp only [formatUrgentAlert]
      rw [urgentLines_eq]
    · intro i a h
      have := urgentLineList_get 0 i high a h
      simpa [urgentLineOf] using this

/-! ## Severity table, eviction order and keys: claims C24 to C26 -/

/-- C24.  For every metric name and any two readings, runtimes and clocks, if
`evaluateMetric` emits candidates of the same type for both, the two candidates have
the same urgency, the same recommendation and the same emoji. -/
theorem evaluateMetric_fixed_by_type (rt rt' : Runtime) (clock clock' : Clock) (name : String)
    (data data' : MetricData) (alerts alerts' : List Alert) (a a' : Alert)
    (h : evaluateMetric rt clock name data = .ok alerts)
    (h' : evaluateMetric rt' clock' name data' = .ok alerts')
    (ha : a ∈ alerts) (ha' : a' ∈ alerts') (htype : a.type = a'.type) :
    a.urgency = a'.urgency ∧ a.recommendation = a'.recommendation ∧ a.emoji = a'.emoji := by
  unfold evaluateMetric at h h'
  split at h
  · cases h
  split at h'
  · cases h'
  simp only at h h'
  split at h
  · cases h
  split at h'
  · cases h'
  rename_i raw hraw _ raw' hraw'
  injection h with h
  injection h' with h'
  subst h h'
  obtain ⟨r, hr, rfl⟩ := List.mem_map.mp ha
  obtain ⟨r', hr', rfl⟩ := List.mem_map.mp ha'
  simp only at htype ⊢
  split at hraw
  all_goals simp only [checkVIXAlerts, checkVIXTermStructureAlerts, checkCAPEAlerts,
    checkMarginDebtAlerts, checkMcclellanAlerts, checkPutCallAlerts, checkRSIAlerts,
    checkHighLowAlerts, checkFearGreedAlerts, checkAAIIAlerts, checkInsiderAlerts,
    checkYieldSpreadAlerts, checkCreditSpreadAlerts, checkDollarAlerts,
    checkNVDAPEAlerts, checkSemiETFAlerts] at hraw hraw'
  all_goals repeat' split at hraw
  all_goals first
    | (cases hraw; done)
    | (injection hraw with hraw; subst hraw; cases hr; done)
    | (injection hraw with hraw
       subst hraw
       rw [List.mem_singleton] at hr
       subst hr
       repeat' split at hraw'
       all_goals first
         | (cases hraw'; done)
         | (injection hraw' with hraw'; subst hraw'; cases hr'; done)
         | (injection hraw' with hraw'
            subst hraw'
            rw [List.mem_singleton] at hr'
            subst hr'
            first
              | exact ⟨rfl, rfl, rfl⟩
              | (exfalso; simp at htype)))

/-- C24, witness: VIX at 42 and at 45 both emit PANIC_BUYING_OPPORTUNITY. -/
theorem evaluateMetric_fixed_by_type_witness :
    sampleAlert.urgency = sampleAlert45.urgency ∧
    sampleAlert.recommendation = sampleAlert45.recommendation ∧
    sampleAlert.emoji = sampleAlert45.emoji :=
  evaluateMetric_fixed_by_type sampleRuntime sampleRuntime (sampleClock 1000)
    (sampleClock 1000) "vix" (sampleVixData 42) (sampleVixData 45) [sampleAlert]
    [sampleAlert45] sampleAlert sampleAlert45 (by decide!) (by decide!)
    (List.mem_singleton.mpr rfl) (List.mem_singleton.mpr rfl) rfl

/-- C25.  On a store with unique keys and at most 100 entries: recording a key that is
present sets its timestamp, keeps the order of the keys, the size and every other
entry; when the store holds 100 entries, recording a new key afterwards removes
exactly the first key in insertion order, also when that key is the one just
re-recorded, appends the new key last and keeps every other entry; below 100 entries
nothing is removed. -/
theorem eviction_is_insertion_order (h : AlertHistory) (a b : Alert) (t t' : Int)
    (hwf : WellFormed h) (ha : alertKey a ∈ keys h) (hb : alertKey b ∉ keys h) :
    (keys (recordAlert h t a) = keys h ∧
      (recordAlert h t a).size = h.size ∧
      (recordAlert h t a).get (alertKey a) = some t ∧
      ∀ k, k ≠ alertKey a → (recordAlert h t a).get k = h.get k) ∧
    (h.size = 100 →
      recordAlert (recordAlert h t a) t' b = (recordAlert h t a).tail ++ [(alertKey b, t')] ∧
      keys (recordAlert (recordAlert h t a) t' b) = (keys h).tail ++ [alertKey b] ∧
      (recordAlert (recordAlert h t a) t' b).size = 100 ∧
      (∀ k, (keys h).head? = some k →
        (recordAlert (recordAlert h t a) t' b).get k = none) ∧
      (∀ k ∈ (keys h).tail,
        (recordAlert (recordAlert h t a) t' b).get k = (recordAlert h t a).get k)) ∧
    (h.size < 100 →
      recordAlert (recordAlert h t a) t' b = recordAlert h t a ++ [(alertKey b, t')]) := by
  have hrec := recordAlert_of_mem h t a ha hwf.2
  have hkeys : keys (recordAlert h t a) = keys h := by
    rw [hrec]; exact keys_set_of_mem h _ t ha
  have hlen : (recordAlert h t a).length = h.length := by
    rw [hrec]; exact length_set_of_mem h _ t ha
  have hwf' := recordAlert_wellFormed h t a hwf
  have hb' : alertKey b ∉ keys (recordAlert h t a) := by rw [hkeys]; exact hb
  refine ⟨⟨hkeys, hlen, get_recordAlert_self h t a hwf, ?_⟩, ?_, ?_⟩
  · intro k hk
    rw [hrec]
    exact get_set_ne h _ k t hk
  · intro hfull
    have hfull' : (recordAlert h t a).length = 100 := by rw [hlen]; exact hfull
    have hstep := recordAlert_of_not_mem_full (recordAlert h t a) t' b hb' hwf'.1 hfull'
    have hkeys2 : keys (recordAlert (recordAlert h t a) t' b) = (keys h).tail ++ [alertKey b] := by
      rw [hstep]
      simp only [keys, List.map_append, List.map_cons, List.map_nil]
      have := keys_tail (recordAlert h t a)
      simp only [keys] at this hkeys
      rw [this, hkeys]
    have hwf2 := recordAlert_wellFormed (recordAlert h t a) t' b hwf'
    refine ⟨hstep, hkeys2, ?_, ?_, ?_⟩
    · rw [hstep]
      simp only [size, List.length_append, List.length_tail, List.length_singleton, hfull']
    · intro k hk
      apply get_eq_none_of_not_mem
      rw [hkeys2]
      have hnd := hwf.1
      cases hkh : keys h with
      | nil => rw [hkh] at hk; cases hk
      | cons k0 rest =>
        rw [hkh] at hk hnd
        simp only [List.head?_cons, Option.some.injEq] at hk
        subst hk
        simp only [List.tail_cons, List.mem_append, List.mem_singleton, not_or]
        refine ⟨(List.nodup_cons.mp hnd).1, ?_⟩
        intro hkb
        apply hb
        rw [hkh, ← hkb]
        exact List.mem_cons_self _ _
    · intro k hk
      have hkne : k ≠ alertKey b := by
        intro hkb
        apply hb
        rw [← hkb]
        exact List.mem_of_mem_tail hk
      rcases get_recordAlert_ne (recordAlert h t a) t' b k hkne with hsame | hnone
      · exact hsame
      · exfalso
        have hin : k ∈ keys (recordAlert (recordAlert h t a) t' b) := by
          rw [hkeys2]; exact List.mem_append_left _ hk
        simp only [keys, List.mem_map] at hin
        obtain ⟨e, he, hek⟩ := hin
        have := get_of_mem _ k e.2 hwf2.1 (by rw [← hek]; exact he)
        rw [hnone] at this
        cases this
  · intro hsmall
    exact recordAlert_of_not_mem_small (recordAlert h t a) t' b hb' (by rw [hlen]; exact hsmall)

/-- C25, witness: the oldest key of a full store is re-recorded and is still the one
evicted by the next new key. -/
theorem eviction_is_insertion_order_witness :
    (keys (recordAlert (recordAll sampleCalls []) 9000 sampleOldest)
        = keys (recordAll sampleCalls []) ∧
      (recordAlert (recordAll sampleCalls []) 9000 sampleOldest).size
        = (recordAll sampleCalls []).size ∧
      (recordAlert (recordAll sampleCalls []) 9000 sampleOldest).get (alertKey sampleOldest)
        = some 9000 ∧
      ∀ k, k ≠ alertKey sampleOldest →
        (recordAlert (recordAll sampleCalls []) 9000 sampleOldest).get k
          = (recordAll sampleCalls []).get k) ∧
    ((recordAll sampleCalls []).size = 100 →
      recordAlert (recordAlert (recordAll sampleCalls []) 9000 sampleOldest) 9500 sampleAlert =
        (recordAlert (recordAll sampleCalls []) 9000 sampleOldest).tail ++
          [(alertKey sampleAlert, 9500)] ∧
      keys (recordAlert (recordAlert (recordAll sampleCalls []) 9000 sampleOldest) 9500
        sampleAlert) = (keys (recordAll sampleCalls [])).tail ++ [alertKey sampleAlert] ∧
      (recordAlert (recordAlert (recordAll sampleCalls []) 9000 sampleOldest) 9500
        sampleAlert).size = 100 ∧
      (∀ k, (keys (recordAll sampleCalls [])).head? = some k →
        (recordAlert (recordAlert (recordAll sampleCalls []) 9000 sampleOldest) 9500
          sampleAlert).get k = none) ∧
      (∀ k ∈ (keys (recordAll sampleCalls [])).tail,
        (recordAlert (recordAlert (recordAll sampleCalls []) 9000 sampleOldest) 9500
          sampleAlert).get k =
        (recordAlert (recordAll sampleCalls []) 9000 sampleOldest).get k)) ∧
    ((recordAll sampleCalls []).size < 100 →
      recordAlert (recordAlert (recordAll sampleCalls []) 9000 sampleOldest) 9500 sampleAlert =
        recordAlert (recordAll sampleCalls []) 9000 sampleOldest ++
          [(alertKey sampleAlert, 9500)]) :=
  eviction_is_insertion_order (recordAll sampleCalls []) sampleOldest sampleAlert 9000 9500
    (recordAll_wellFormed sampleCalls [] wellFormed_nil) (by decide!) (by decide!)

/-- C26.  For candidates `a` and `b` produced by `evaluateMetric`, the keys are equal
exactly when the metric names are equal and the types are equal; when the pairs
differ, recording a dispatch of `a` leaves a `b` that `shouldSendAlert` allowed still
allowed. -/
theorem alertKey_pair (rt rt' : Runtime) (clock clock' : Clock) (name name' : String)
    (data data' : MetricData) (alerts alerts' : List Alert) (a b : Alert)
    (h : evaluateMetric rt clock name data = .ok alerts)
    (h' : evaluateMetric rt' clock' name' data' = .ok alerts')
    (ha : a ∈ alerts) (hb : b ∈ alerts') :
    (alertKey a = alertKey b ↔ a.metricName = b.metricName ∧ a.type = b.type) ∧
    (¬ (a.metricName = b.metricName ∧ a.type = b.type) →
      ∀ (store : AlertHistory) (t now : Int), shouldSendAlert store now b = true →
        shouldSendAlert (recordAlert store t a) now b = true) := by
  have hua := (evaluateMetric_metricName rt clock name data alerts h a ha)
  have hub := (evaluateMetric_metricName rt' clock' name' data' alerts' h' b hb)
  have hiff : alertKey a = alertKey b ↔ a.metricName = b.metricName ∧ a.type = b.type := by
    constructor
    · intro hk
      have hm := metricName_eq_of_alertKey_eq a b (hua.1 ▸ hua.2) (hub.1 ▸ hub.2) hk
      exact ⟨hm, type_eq_of_alertKey_eq a b hm hk⟩
    · rintro ⟨hm, ht⟩
      simp [alertKey, hm, ht]
  refine ⟨hiff, ?_⟩
  intro hne store t now hpass
  exact shouldSendAlert_after_other store t now a b (fun hk => hne (hiff.mp hk.symm)) hpass

/-- C26, witness: the VIX candidate and the put/call candidate. -/
theorem alertKey_pair_witness :
    (alertKey sampleAlert = alertKey samplePutCallAlert ↔
      sampleAlert.metricName = samplePutCallAlert.metricName ∧
        sampleAlert.type = samplePutCallAlert.type) ∧
    (¬ (sampleAlert.metricName = samplePutCallAlert.metricName ∧
        sampleAlert.type = samplePutCallAlert.type) →
      ∀ (store : AlertHistory) (t now : Int),
        shouldSendAlert store now samplePutCallAlert = true →
        shouldSendAlert (recordAlert store t sampleAlert) now samplePutCallAlert = true) :=
  alertKey_pair sampleRuntime sampleRuntime (sampleClock 1000) (sampleClock 1000) "vix"
    "putCallRatio" (sampleVixData 42)
    { value := some (5 / 2), error := none, config := some ⟨some samplePutCallThresholds⟩ }
    [sampleAlert] [samplePutCallAlert] sampleAlert samplePutCallAlert (by decide!)
    (by decide!) (List.mem_singleton.mpr rfl) (List.mem_singleton.mpr rfl)

/-! ## Independence, the fourth VIX tier, monotonicity, timestamp 0: claims C27 to C30 -/

/-- C27.  For every snapshot, any two service states and any two transports,
`checkAlerts` returns the same candidates, and the cooldown store after `checkAlerts`
is the store before. -/
theorem checkAlerts_independent (rt : Runtime) (send send' : Transport) (clock : Clock)
    (s s' : Service) (metrics : Snapshot) :
    (checkAlerts rt send clock s metrics).1 = (checkAlerts rt send' clock s' metrics).1 ∧
    (checkAlerts rt send clock s metrics).2.alertHistory = s.alertHistory := by
  constructor
  · rw [checkAlerts_fst, checkAlerts_fst]
  · rw [checkAlerts_snd]
    split <;> rfl

/-- C28.  For every threshold set and every value below `panic`, `danger` and
`warning`, `checkVIXAlerts` returns exactly ELEVATED_VOLATILITY with urgency LOW when
the value is at least 15, and no candidate when it is below 15. -/
theorem checkVIXAlerts_fourth_tier (rt : Runtime) (th : Thresholds) (v w d p : ℚ)
    (hw : th "warning" = some w) (hd : th "danger" = some d) (hp : th "panic" = some p)
    (hvp : v < p) (hvd : v < d) (hvw : v < w) :
    kinds (checkVIXAlerts rt (some v) (some th)) =
      some (if v ≥ 15 then [("ELEVATED_VOLATILITY", .LOW)] else []) := by
  have h1 : ¬ v ≥ p := not_le.mpr hvp
  have h2 : ¬ v ≥ d := not_le.mpr hvd
  have h3 : ¬ v ≥ w := not_le.mpr hvw
  simp only [kinds, checkVIXAlerts, jsGe, hw, hd, hp, h1, h2, h3, decide_False,
    Bool.false_eq_true, if_false]
  split_ifs <;> simp_all

/-- C28, witness: the value 16 with warning 20, danger 30, panic 40. -/
theorem checkVIXAlerts_fourth_tier_witness :
    kinds (checkVIXAlerts sampleRuntime (some 16) (some sampleVixThresholds)) =
      some (if (16 : ℚ) ≥ 15 then [("ELEVATED_VOLATILITY", .LOW)] else []) :=
  checkVIXAlerts_fourth_tier sampleRuntime sampleVixThresholds 16 20 30 40 (by decide)
    (by decide) (by decide) (by decide) (by decide) (by decide)

/-- C29.  For every threshold set, ordered or not, and so in particular when
`15 ≤ warning ≤ danger ≤ panic`, and all values `v ≤ v'`, the severity rank of
`checkVIXAlerts` at `v` is at most the rank at `v'`, with ranks 0 for no candidate and
1, 2, 3 for LOW, MEDIUM, HIGH. -/
theorem checkVIXAlerts_monotone (rt : Runtime) (th : Thresholds) (w d p v v' : ℚ)
    (hw : th "warning" = some w) (hd : th "danger" = some d) (hp : th "panic" = some p)
    (hv : v ≤ v') :
    severityRank (checkVIXAlerts rt (some v) (some th)) ≤
      severityRank (checkVIXAlerts rt (some v') (some th)) := by
  simp only [severityRank, checkVIXAlerts, jsGe, hw, hd, hp]
  split_ifs <;> simp_all [urgencyRank] <;> linarith

/-- C29, witness: the values 16 and 25 with warning 20, danger 30, panic 40. -/
theorem checkVIXAlerts_monotone_witness :
    severityRank (checkVIXAlerts sampleRuntime (some 16) (some sampleVixThresholds)) ≤
      severityRank (checkVIXAlerts sampleRuntime (some 25) (some sampleVixThresholds)) :=
  checkVIXAlerts_monotone sampleRuntime sampleVixThresholds 20 30 40 16 25 (by decide)
    (by decide) (by decide) (by decide)

/-- C30.  For every candidate whose key maps to 0 in the store, every urgency and
every current time, `shouldSendAlert` returns true. -/
theorem shouldSendAlert_zero_timestamp (h : AlertHistory) (now : Int) (a : Alert)
    (hzero : h.get (alertKey a) = some 0) : shouldSendAlert h now a = true := by
  unfold shouldSendAlert
  rw [hzero]
  simp

/-- C30, witness: the key maps to 0 and the current time is 1, inside every window. -/
theorem shouldSendAlert_zero_timestamp_witness :
    shouldSendAlert zeroStore 1 sampleAlert = true :=
  shouldSendAlert_zero_timestamp zeroStore 1 sampleAlert (by decide)

end BeaverMarketBot
